import Mathlib

/-!
# Verification of `server/migrate-to-supabase.js`

A shallow embedding of the SQLite-to-Supabase migration script and proofs
about its behaviour.  The script reads whole tables from a local SQLite
file, maps each row to a destination record (decoding JSON-encoded text
columns and coercing 0/1-integer booleans), and writes each record to the
remote store: an upsert keyed by a natural-key column for
users/events/fests/registrations, a plain insert for attendance_status and
qr_scan_logs.  Per-row write errors are reported and skipped; a JSON decode
error or a failed table read rejects the enclosing promise and is caught by
the single try/catch in `main`.
-/

set_option autoImplicit false

deriving instance DecidableEq for Except

namespace Migrate

/-- A SQLite column value as surfaced to JavaScript by `better-sqlite3`:
`NULL`, `INTEGER`, `REAL` or `TEXT`.  (`BLOB` does not occur in this
schema.)  `REAL` is modelled with `Rat`. -/
inductive SqlVal where
  | null
  | int (n : Int)
  | real (x : Rat)
  | text (s : String)
deriving DecidableEq, Repr

/-- JavaScript truthiness of a SQLite value: `null`, `0` and the empty
string are falsy, everything else is truthy. -/
def jsTruthy : SqlVal → Bool
  | .null => false
  | .int n => n != 0
  | .real x => x != 0
  | .text s => s != ""

/-- JavaScript strict equality `v === n` between a column value and an
integer literal: numbers compare numerically, a non-number is never
strictly equal to a number. -/
def jsStrictEqInt (v : SqlVal) (n : Int) : Bool :=
  match v with
  | .int m => m == n
  | .real x => x == (n : Rat)
  | _ => false

/-- JavaScript `String.prototype.toLowerCase` (ASCII range, which is all
the prompt comparison needs). -/
def jsToLower (s : String) : String :=
  ⟨s.data.map Char.toLower⟩

/-- JavaScript string coercion of a column value (as in a template
literal `${v}` or the implicit coercion done by `JSON.parse`). -/
def jsShow : SqlVal → String
  | .null => "null"
  | .int n => toString n
  | .real x => toString x
  | .text s => s

mutual

/-- A parsed JSON value, the result type of `JSON.parse`.  Arrays and
objects use the mutually defined list types `JsonItems` / `JsonMembers`
(isomorphic to `List Json` / `List (String × Json)`). -/
inductive Json where
  | null
  | bool (b : Bool)
  | num (q : Rat)
  | str (s : String)
  | arr (items : JsonItems)
  | obj (members : JsonMembers)
deriving DecidableEq, Repr

/-- A list of JSON array items. -/
inductive JsonItems where
  | nil
  | cons (head : Json) (tail : JsonItems)
deriving DecidableEq, Repr

/-- A list of JSON object members (key/value pairs). -/
inductive JsonMembers where
  | nil
  | cons (key : String) (value : Json) (tail : JsonMembers)
deriving DecidableEq, Repr

end

/-- Build `JsonItems` from a `List Json`. -/
def JsonItems.ofList : List Json → JsonItems
  | [] => .nil
  | x :: xs => .cons x (JsonItems.ofList xs)

/-- Build `JsonMembers` from a `List (String × Json)`. -/
def JsonMembers.ofList : List (String × Json) → JsonMembers
  | [] => .nil
  | (k, v) :: xs => .cons k v (JsonMembers.ofList xs)

/-! ## A model of `JSON.parse`

Fuel-indexed recursive-descent parser for JSON text.  `parseJson` fails
(`Except.error`, modelling a thrown `SyntaxError`) on malformed input and
on trailing non-whitespace. -/

/-- Drop leading JSON whitespace (space, tab, newline, carriage return). -/
def skipWs : List Char → List Char
  | [] => []
  | c :: cs =>
    if c == ' ' || c == '\t' || c == '\n' || c == '\r' then skipWs cs
    else c :: cs

/-- Value of a hexadecimal digit. -/
def hexVal (c : Char) : Option Nat :=
  if '0' ≤ c ∧ c ≤ '9' then some (c.toNat - '0'.toNat)
  else if 'a' ≤ c ∧ c ≤ 'f' then some (c.toNat - 'a'.toNat + 10)
  else if 'A' ≤ c ∧ c ≤ 'F' then some (c.toNat - 'A'.toNat + 10)
  else none

/-- Parse the body of a JSON string after the opening quote; returns the
decoded string and the input after the closing quote. -/
def parseStringBody : Nat → List Char → Except String (String × List Char)
  | 0, _ => .error "Unterminated string in JSON"
  | _ + 1, [] => .error "Unterminated string in JSON"
  | fuel + 1, c :: cs =>
    if c == '"' then .ok ("", cs)
    else if c == '\\' then
      match cs with
      | [] => .error "Unterminated string in JSON"
      | e :: cs1 =>
        let decoded : Option (Char × List Char) :=
          if e == '"' then some ('"', cs1)
          else if e == '\\' then some ('\\', cs1)
          else if e == '/' then some ('/', cs1)
          else if e == 'b' then some ('\x08', cs1)
          else if e == 'f' then some ('\x0c', cs1)
          else if e == 'n' then some ('\n', cs1)
          else if e == 'r' then some ('\x0d', cs1)
          else if e == 't' then some ('\t', cs1)
          else if e == 'u' then
            match cs1 with
            | h1 :: h2 :: h3 :: h4 :: rest =>
              match hexVal h1, hexVal h2, hexVal h3, hexVal h4 with
              | some a, some b, some c3, some d =>
                some (Char.ofNat (((a * 16 + b) * 16 + c3) * 16 + d), rest)
              | _, _, _, _ => none
            | _ => none
          else none
        match decoded with
        | none => .error "Bad escaped character in JSON"
        | some (ch, rest) =>
          match parseStringBody fuel rest with
          | .error msg => .error msg
          | .ok (s, r) => .ok (⟨ch :: s.data⟩, r)
    else
      match parseStringBody fuel cs with
      | .error msg => .error msg
      | .ok (s, r) => .ok (⟨c :: s.data⟩, r)

/-- Numeric value of a list of decimal digit characters. -/
def digitsToNat (ds : List Char) : Nat :=
  ds.foldl (fun a c => a * 10 + (c.toNat - '0'.toNat)) 0

/-- Parse a JSON number (optional minus, integer part, optional fraction,
optional exponent); returns its rational value and the rest of the input. -/
def parseNumber (cs : List Char) : Except String (Rat × List Char) :=
  let (neg, cs1) := match cs with
    | '-' :: rest => (true, rest)
    | _ => (false, cs)
  let (ip, cs2) := cs1.span Char.isDigit
  if ip.isEmpty then .error "Unexpected token in JSON" else
  let (fp, cs3) := match cs2 with
    | '.' :: rest => rest.span Char.isDigit
    | _ => ([], cs2)
  if cs2 ≠ [] ∧ cs2.head? = some '.' ∧ fp.isEmpty then
    .error "Unexpected token in JSON"
  else
    let (expNeg, ep, cs4) := match cs3 with
      | 'e' :: '-' :: rest => let (d, r) := rest.span Char.isDigit; (true, d, r)
      | 'e' :: '+' :: rest => let (d, r) := rest.span Char.isDigit; (false, d, r)
      | 'e' :: rest => let (d, r) := rest.span Char.isDigit; (false, d, r)
      | 'E' :: '-' :: rest => let (d, r) := rest.span Char.isDigit; (true, d, r)
      | 'E' :: '+' :: rest => let (d, r) := rest.span Char.isDigit; (false, d, r)
      | 'E' :: rest => let (d, r) := rest.span Char.isDigit; (false, d, r)
      | _ => (false, [], cs3)
    if (cs3.head? = some 'e' ∨ cs3.head? = some 'E') ∧ ep.isEmpty then
      .error "Unexpected token in JSON"
    else if fp.isEmpty ∧ ep.isEmpty then
      let intVal : Int := (if neg then -1 else 1) * (digitsToNat ip : Int)
      .ok ((intVal : Rat), cs4)
    else
      let mant : Rat :=
        (digitsToNat ip : Rat) + (digitsToNat fp : Rat) / ((10 : Rat) ^ fp.length)
      let scaled : Rat :=
        if expNeg then mant / ((10 : Rat) ^ digitsToNat ep)
        else mant * ((10 : Rat) ^ digitsToNat ep)
      .ok ((if neg then -scaled else scaled), cs4)

mutual

/-- Parse one JSON value from the input (leading whitespace allowed). -/
def parseVal : Nat → List Char → Except String (Json × List Char)
  | 0, _ => .error "JSON nesting too deep"
  | fuel + 1, cs =>
    match skipWs cs with
    | [] => .error "Unexpected end of JSON input"
    | c :: rest =>
      if c == '{' then
        match skipWs rest with
        | '}' :: rest1 => .ok (.obj .nil, rest1)
        | other => parseMembers fuel other []
      else if c == '[' then
        match skipWs rest with
        | ']' :: rest1 => .ok (.arr .nil, rest1)
        | other => parseItems fuel other []
      else if c == '"' then
        match parseStringBody (rest.length + 1) rest with
        | .error msg => .error msg
        | .ok (s, rest1) => .ok (.str s, rest1)
      else
        match c :: rest with
        | 't' :: 'r' :: 'u' :: 'e' :: rest1 => .ok (.bool true, rest1)
        | 'f' :: 'a' :: 'l' :: 's' :: 'e' :: rest1 => .ok (.bool false, rest1)
        | 'n' :: 'u' :: 'l' :: 'l' :: rest1 => .ok (.null, rest1)
        | other =>
          match parseNumber other with
          | .error msg => .error msg
          | .ok (q, rest1) => .ok (.num q, rest1)

/-- Parse the members of a JSON object (after the opening brace, at least
one member present), accumulating parsed members. -/
def parseMembers : Nat → List Char → List (String × Json) →
    Except String (Json × List Char)
  | 0, _, _ => .error "JSON nesting too deep"
  | fuel + 1, cs, acc =>
    match skipWs cs with
    | '"' :: rest =>
      match parseStringBody (rest.length + 1) rest with
      | .error msg => .error msg
      | .ok (k, rest1) =>
        match skipWs rest1 with
        | ':' :: rest2 =>
          match parseVal fuel rest2 with
          | .error msg => .error msg
          | .ok (v, rest3) =>
            match skipWs rest3 with
            | ',' :: rest4 => parseMembers fuel rest4 (acc ++ [(k, v)])
            | '}' :: rest4 => .ok (.obj (JsonMembers.ofList (acc ++ [(k, v)])), rest4)
            | _ => .error "Expected comma or closing brace in JSON object"
        | _ => .error "Expected colon in JSON object"
    | _ => .error "Expected string key in JSON object"

/-- Parse the items of a JSON array (after the opening bracket, at least
one item present), accumulating parsed items. -/
def parseItems : Nat → List Char → List Json →
    Except String (Json × List Char)
  | 0, _, _ => .error "JSON nesting too deep"
  | fuel + 1, cs, acc =>
    match parseVal fuel cs with
    | .error msg => .error msg
    | .ok (v, rest) =>
      match skipWs rest with
      | ',' :: rest1 => parseItems fuel rest1 (acc ++ [v])
      | ']' :: rest1 => .ok (.arr (JsonItems.ofList (acc ++ [v])), rest1)
      | _ => .error "Expected comma or closing bracket in JSON array"

end

/-- `JSON.parse` on a string: parse one value, then require only
whitespace to remain. -/
def parseJson (s : String) : Except String Json :=
  match parseVal (s.length + 1) s.data with
  | .error msg => .error msg
  | .ok (j, rest) =>
    if (skipWs rest).isEmpty then .ok j
    else .error "Unexpected non-whitespace character after JSON data"

/-! ## Destination records and field mapping -/

/-- A value in a destination record: `null` (from a `x ? ... : null`
expression), a coerced boolean, a decoded JSON value, or a source column
value passed through unchanged. -/
inductive DVal where
  | null
  | bool (b : Bool)
  | json (j : Json)
  | fromSql (v : SqlVal)
deriving DecidableEq, Repr

/-- The JavaScript expression `v ? JSON.parse(v) : null` used for every
JSON-encoded column: a falsy source value yields `null` without
attempting to decode; otherwise `JSON.parse` runs (on the string coercion
of `v`) and may throw. -/
def jsonField (v : SqlVal) : Except String DVal :=
  if jsTruthy v then (parseJson (jsShow v)).map DVal.json
  else .ok DVal.null

/-- A destination record: the object literal passed to
`supabase.from(t).upsert(...)` / `.insert(...)`, as an ordered list of
field-name/value pairs. -/
abbrev Record := List (String × DVal)

/-- A row of the source `users` table.  The server-generated `id` primary
key is not consulted by the migration and is omitted from the row model;
the remaining columns follow the declared schema. -/
structure UserRow where
  auth_uuid : SqlVal
  email : SqlVal
  name : SqlVal
  avatar_url : SqlVal
  is_organiser : SqlVal
  course : SqlVal
  register_number : SqlVal
  created_at : SqlVal
deriving DecidableEq, Repr

/-- A row of the source `events` table (generated `id` omitted). -/
structure EventRow where
  event_id : SqlVal
  title : SqlVal
  description : SqlVal
  event_date : SqlVal
  event_time : SqlVal
  end_date : SqlVal
  venue : SqlVal
  category : SqlVal
  department_access : SqlVal
  claims_applicable : SqlVal
  registration_fee : SqlVal
  participants_per_team : SqlVal
  max_participants : SqlVal
  event_image_url : SqlVal
  banner_url : SqlVal
  pdf_url : SqlVal
  rules : SqlVal
  schedule : SqlVal
  prizes : SqlVal
  organizer_email : SqlVal
  organizer_phone : SqlVal
  whatsapp_invite_link : SqlVal
  organizing_dept : SqlVal
  fest : SqlVal
  created_by : SqlVal
  created_at : SqlVal
  updated_at : SqlVal
  registration_deadline : SqlVal
  total_participants : SqlVal
deriving DecidableEq, Repr

/-- A row of the source `fests` table (generated `id` omitted). -/
structure FestRow where
  fest_id : SqlVal
  fest_title : SqlVal
  description : SqlVal
  opening_date : SqlVal
  closing_date : SqlVal
  fest_image_url : SqlVal
  organizing_dept : SqlVal
  department_access : SqlVal
  category : SqlVal
  contact_email : SqlVal
  contact_phone : SqlVal
  event_heads : SqlVal
  created_by : SqlVal
  created_at : SqlVal
deriving DecidableEq, Repr

/-- A row of the source `registrations` table (generated `id` omitted). -/
structure RegRow where
  registration_id : SqlVal
  event_id : SqlVal
  user_email : SqlVal
  registration_type : SqlVal
  individual_name : SqlVal
  individual_email : SqlVal
  individual_register_number : SqlVal
  team_name : SqlVal
  team_leader_name : SqlVal
  team_leader_email : SqlVal
  team_leader_register_number : SqlVal
  teammates : SqlVal
  created_at : SqlVal
  qr_code_data : SqlVal
  qr_code_generated_at : SqlVal
deriving DecidableEq, Repr

/-- A row of the source `attendance_status` table (generated `id`
omitted). -/
structure AttRow where
  registration_id : SqlVal
  event_id : SqlVal
  status : SqlVal
  marked_at : SqlVal
  marked_by : SqlVal
deriving DecidableEq, Repr

/-- A row of the source `qr_scan_logs` table (generated `id` omitted). -/
structure QRRow where
  registration_id : SqlVal
  event_id : SqlVal
  scanned_by : SqlVal
  scan_timestamp : SqlVal
  scan_result : SqlVal
  scanner_info : SqlVal
deriving DecidableEq, Repr

/-- The object literal built for each user in `migrateUsers`. -/
def mapUser (u : UserRow) : Record :=
  [("auth_uuid", .fromSql u.auth_uuid),
   ("email", .fromSql u.email),
   ("name", .fromSql u.name),
   ("avatar_url", .fromSql u.avatar_url),
   ("is_organiser", .bool (jsStrictEqInt u.is_organiser 1)),
   ("course", .fromSql u.course),
   ("created_at", .fromSql u.created_at)]

/-- The object literal built for each event in `migrateEvents`; the four
JSON-encoded columns are decoded (in source order), and `JSON.parse` may
throw. -/
def mapEvent (e : EventRow) : Except String Record := do
  let department_access ← jsonField e.department_access
  let rules ← jsonField e.rules
  let schedule ← jsonField e.schedule
  let prizes ← jsonField e.prizes
  pure
    [("event_id", .fromSql e.event_id),
     ("title", .fromSql e.title),
     ("description", .fromSql e.description),
     ("event_date", .fromSql e.event_date),
     ("event_time", .fromSql e.event_time),
     ("end_date", .fromSql e.end_date),
     ("venue", .fromSql e.venue),
     ("category", .fromSql e.category),
     ("department_access", department_access),
     ("claims_applicable", .bool (jsStrictEqInt e.claims_applicable 1)),
     ("registration_fee", .fromSql e.registration_fee),
     ("participants_per_team", .fromSql e.participants_per_team),
     ("max_participants", .fromSql e.max_participants),
     ("event_image_url", .fromSql e.event_image_url),
     ("banner_url", .fromSql e.banner_url),
     ("pdf_url", .fromSql e.pdf_url),
     ("rules", rules),
     ("schedule", schedule),
     ("prizes", prizes),
     ("organizer_email", .fromSql e.organizer_email),
     ("organizer_phone", .fromSql e.organizer_phone),
     ("whatsapp_invite_link", .fromSql e.whatsapp_invite_link),
     ("organizing_dept", .fromSql e.organizing_dept),
     ("fest", .fromSql e.fest),
     ("created_by", .fromSql e.created_by),
     ("created_at", .fromSql e.created_at),
     ("updated_at", .fromSql e.updated_at),
     ("registration_deadline", .fromSql e.registration_deadline),
     ("total_participants",
       if jsTruthy e.total_participants then .fromSql e.total_participants
       else .fromSql (.int 0))]

/-- The object literal built for each fest in `migrateFests`. -/
def mapFest (f : FestRow) : Except String Record := do
  let department_access ← jsonField f.department_access
  let event_heads ← jsonField f.event_heads
  pure
    [("fest_id", .fromSql f.fest_id),
     ("fest_title", .fromSql f.fest_title),
     ("description", .fromSql f.description),
     ("opening_date", .fromSql f.opening_date),
     ("closing_date", .fromSql f.closing_date),
     ("fest_image_url", .fromSql f.fest_image_url),
     ("organizing_dept", .fromSql f.organizing_dept),
     ("department_access", department_access),
     ("category", .fromSql f.category),
     ("contact_email", .fromSql f.contact_email),
     ("contact_phone", .fromSql f.contact_phone),
     ("event_heads", event_heads),
     ("created_by", .fromSql f.created_by),
     ("created_at", .fromSql f.created_at)]

/-- The object literal built for each registration in
`migrateRegistrations`. -/
def mapRegistration (r : RegRow) : Except String Record := do
  let teammates ← jsonField r.teammates
  let qr_code_data ← jsonField r.qr_code_data
  pure
    [("registration_id", .fromSql r.registration_id),
     ("event_id", .fromSql r.event_id),
     ("user_email", .fromSql r.user_email),
     ("registration_type", .fromSql r.registration_type),
     ("individual_name", .fromSql r.individual_name),
     ("individual_email", .fromSql r.individual_email),
     ("individual_register_number", .fromSql r.individual_register_number),
     ("team_name", .fromSql r.team_name),
     ("team_leader_name", .fromSql r.team_leader_name),
     ("team_leader_email", .fromSql r.team_leader_email),
     ("team_leader_register_number", .fromSql r.team_leader_register_number),
     ("teammates", teammates),
     ("created_at", .fromSql r.created_at),
     ("qr_code_data", qr_code_data),
     ("qr_code_generated_at", .fromSql r.qr_code_generated_at)]

/-- The object literal built for each attendance record in
`migrateAttendance`. -/
def mapAttendance (a : AttRow) : Record :=
  [("registration_id", .fromSql a.registration_id),
   ("event_id", .fromSql a.event_id),
   ("status", .fromSql a.status),
   ("marked_at", .fromSql a.marked_at),
   ("marked_by", .fromSql a.marked_by)]

/-- The object literal built for each scan log in `migrateQRScanLogs`. -/
def mapQRScanLog (l : QRRow) : Except String Record := do
  let scanner_info ← jsonField l.scanner_info
  pure
    [("registration_id", .fromSql l.registration_id),
     ("event_id", .fromSql l.event_id),
     ("scanned_by", .fromSql l.scanned_by),
     ("scan_timestamp", .fromSql l.scan_timestamp),
     ("scan_result", .fromSql l.scan_result),
     ("scanner_info", scanner_info)]

/-! ## The destination store -/

/-- State of the six destination tables touched by the migration (each a
list of records, in insertion order). -/
structure Supabase where
  users : List Record
  events : List Record
  fests : List Record
  registrations : List Record
  attendance_status : List Record
  qr_scan_logs : List Record
deriving DecidableEq, Repr

/-- A destination store with all tables empty (as after the schema
bootstrap SQL, which drops and re-creates every table). -/
def emptyDb : Supabase := ⟨[], [], [], [], [], []⟩

/-- Postgres upsert semantics for `onConflict` column `key`: if a row
with the payload's `key`-column value exists, its fields are overwritten
by the payload; otherwise the payload is appended as a new row. -/
def upsertRec (key : String) (r : Record) : List Record → List Record
  | [] => [r]
  | x :: xs =>
    if x.lookup key = r.lookup key then r :: xs
    else x :: upsertRec key r xs

/-- A write request submitted to the destination API. -/
inductive WriteOp where
  | upsert (table : String) (payload : Record) (onConflict : String)
  | insert (table : String) (payload : Record)
deriving DecidableEq, Repr

/-- A console line emitted by a table migration (the emoji/indentation
decoration of the source's `console.log` calls is elided; the interpolated
data is kept). -/
inductive LogLine where
  | info (msg : String)
  | success (label : String)
  | failure (label : String) (msg : String)
deriving DecidableEq, Repr

/-- Models the remote API's per-request outcome: given the target table
and the payload, `some msg` means the response carries a non-null `error`
with message `msg` (network error, constraint violation, ...); `none`
means success.  The script only inspects `error.message`. -/
def ErrOracle := String → Record → Option String

/-- A destination that accepts every write. -/
def noErr : ErrOracle := fun _ _ => none

/-- Result of one table-migration call: destination state afterwards, the
write requests submitted, the log lines printed, and `some e` when the
async function rejected (an uncaught throw, e.g. from `JSON.parse`). -/
structure TRes where
  state : Supabase
  writes : List WriteOp
  logs : List LogLine
  thrown : Option String
deriving DecidableEq, Repr

/-! ## The six table migrations -/

/-- The `for (const user of users)` loop of `migrateUsers`. -/
def usersLoop (err : ErrOracle) : List UserRow → Supabase → TRes
  | [], st => ⟨st, [], [], none⟩
  | u :: rest, st =>
    let payload := mapUser u
    let w := WriteOp.upsert "users" payload "email"
    match err "users" payload with
    | some msg =>
      let r := usersLoop err rest st
      ⟨r.state, w :: r.writes, .failure (jsShow u.email) msg :: r.logs, r.thrown⟩
    | none =>
      let r := usersLoop err rest { st with users := upsertRec "email" payload st.users }
      ⟨r.state, w :: r.writes, .success (jsShow u.email) :: r.logs, r.thrown⟩

/-- `migrateUsers`: read all users, report and return if none, otherwise
upsert each mapped row keyed on `email`. -/
def migrateUsers (err : ErrOracle) (rows : List UserRow) (st : Supabase) : TRes :=
  if rows.length = 0 then ⟨st, [], [.info "No users to migrate"], none⟩
  else usersLoop err rows st

/-- The `for (const event of events)` loop of `migrateEvents`.  A
`JSON.parse` throw rejects the promise: the remaining rows are not
processed. -/
def eventsLoop (err : ErrOracle) : List EventRow → Supabase → TRes
  | [], st => ⟨st, [], [], none⟩
  | e :: rest, st =>
    match mapEvent e with
    | .error exn => ⟨st, [], [], some exn⟩
    | .ok payload =>
      let w := WriteOp.upsert "events" payload "event_id"
      match err "events" payload with
      | some msg =>
        let r := eventsLoop err rest st
        ⟨r.state, w :: r.writes, .failure (jsShow e.title) msg :: r.logs, r.thrown⟩
      | none =>
        let r := eventsLoop err rest { st with events := upsertRec "event_id" payload st.events }
        ⟨r.state, w :: r.writes, .success (jsShow e.title) :: r.logs, r.thrown⟩

/-- `migrateEvents`: read all events, report and return if none, otherwise
upsert each mapped row keyed on `event_id`. -/
def migrateEvents (err : ErrOracle) (rows : List EventRow) (st : Supabase) : TRes :=
  if rows.length = 0 then ⟨st, [], [.info "No events to migrate"], none⟩
  else eventsLoop err rows st

/-- The `for (const fest of fests)` loop of `migrateFests`. -/
def festsLoop (err : ErrOracle) : List FestRow → Supabase → TRes
  | [], st => ⟨st, [], [], none⟩
  | f :: rest, st =>
    match mapFest f with
    | .error exn => ⟨st, [], [], some exn⟩
    | .ok payload =>
      let w := WriteOp.upsert "fests" payload "fest_id"
      match err "fests" payload with
      | some msg =>
        let r := festsLoop err rest st
        ⟨r.state, w :: r.writes, .failure (jsShow f.fest_title) msg :: r.logs, r.thrown⟩
      | none =>
        let r := festsLoop err rest { st with fests := upsertRec "fest_id" payload st.fests }
        ⟨r.state, w :: r.writes, .success (jsShow f.fest_title) :: r.logs, r.thrown⟩

/-- `migrateFests`: read all fests, report and return if none, otherwise
upsert each mapped row keyed on `fest_id`. -/
def migrateFests (err : ErrOracle) (rows : List FestRow) (st : Supabase) : TRes :=
  if rows.length = 0 then ⟨st, [], [.info "No fests to migrate"], none⟩
  else festsLoop err rows st

/-- The `for (const reg of registrations)` loop of
`migrateRegistrations`. -/
def registrationsLoop (err : ErrOracle) : List RegRow → Supabase → TRes
  | [], st => ⟨st, [], [], none⟩
  | g :: rest, st =>
    match mapRegistration g with
    | .error exn => ⟨st, [], [], some exn⟩
    | .ok payload =>
      let w := WriteOp.upsert "registrations" payload "registration_id"
      match err "registrations" payload with
      | some msg =>
        let r := registrationsLoop err rest st
        ⟨r.state, w :: r.writes,
         .failure (jsShow g.registration_id) msg :: r.logs, r.thrown⟩
      | none =>
        let r := registrationsLoop err rest
          { st with registrations := upsertRec "registration_id" payload st.registrations }
        ⟨r.state, w :: r.writes,
         .success (jsShow g.registration_id) :: r.logs, r.thrown⟩

/-- `migrateRegistrations`: read all registrations, report and return if
none, otherwise upsert each mapped row keyed on `registration_id`. -/
def migrateRegistrations (err : ErrOracle) (rows : List RegRow) (st : Supabase) : TRes :=
  if rows.length = 0 then ⟨st, [], [.info "No registrations to migrate"], none⟩
  else registrationsLoop err rows st

/-- The `for (const att of attendance)` loop of `migrateAttendance`:
plain inserts, no conflict key. -/
def attendanceLoop (err : ErrOracle) : List AttRow → Supabase → TRes
  | [], st => ⟨st, [], [], none⟩
  | a :: rest, st =>
    let payload := mapAttendance a
    let w := WriteOp.insert "attendance_status" payload
    match err "attendance_status" payload with
    | some msg =>
      let r := attendanceLoop err rest st
      ⟨r.state, w :: r.writes,
       .failure (jsShow a.registration_id) msg :: r.logs, r.thrown⟩
    | none =>
      let r := attendanceLoop err rest
        { st with attendance_status := st.attendance_status ++ [payload] }
      ⟨r.state, w :: r.writes,
       .success (jsShow a.registration_id) :: r.logs, r.thrown⟩

/-- `migrateAttendance`: read all attendance rows, report and return if
none, otherwise insert each mapped row (no deduplication). -/
def migrateAttendance (err : ErrOracle) (rows : List AttRow) (st : Supabase) : TRes :=
  if rows.length = 0 then ⟨st, [], [.info "No attendance records to migrate"], none⟩
  else attendanceLoop err rows st

/-- The `for (const log of logs)` loop of `migrateQRScanLogs`: plain
inserts, no conflict key. -/
def qrScanLogsLoop (err : ErrOracle) : List QRRow → Supabase → TRes
  | [], st => ⟨st, [], [], none⟩
  | l :: rest, st =>
    match mapQRScanLog l with
    | .error exn => ⟨st, [], [], some exn⟩
    | .ok payload =>
      let w := WriteOp.insert "qr_scan_logs" payload
      match err "qr_scan_logs" payload with
      | some msg =>
        let r := qrScanLogsLoop err rest st
        ⟨r.state, w :: r.writes,
         .failure (jsShow l.scan_result) msg :: r.logs, r.thrown⟩
      | none =>
        let r := qrScanLogsLoop err rest
          { st with qr_scan_logs := st.qr_scan_logs ++ [payload] }
        ⟨r.state, w :: r.writes,
         .success (jsShow l.scan_result) :: r.logs, r.thrown⟩

/-- `migrateQRScanLogs`: read all scan logs, report and return if none,
otherwise insert each mapped row (no deduplication). -/
def migrateQRScanLogs (err : ErrOracle) (rows : List QRRow) (st : Supabase) : TRes :=
  if rows.length = 0 then ⟨st, [], [.info "No QR scan logs to migrate"], none⟩
  else qrScanLogsLoop err rows st

/-! ## Orchestration (`main`)

`main` prints the schema SQL, saves it to `./supabase-schema.sql`, asks a
yes/no question, and on an affirmative answer runs the six migrations
sequentially inside one `try`/`catch`, then closes the SQLite handle.  The
SQLite file itself is modelled as a record of per-table read results
(`Except`, since `db.prepare(...).all()` can throw for a missing table or
corrupt file), and the operations performed on it as a trace of `SrcOp`s. -/

/-- The source SQLite database: for each table, the outcome of
`db.prepare('SELECT * FROM t').all()`. -/
structure SqliteDb where
  users : Except String (List UserRow)
  events : Except String (List EventRow)
  fests : Except String (List FestRow)
  registrations : Except String (List RegRow)
  attendance_status : Except String (List AttRow)
  qr_scan_logs : Except String (List QRRow)

/-- An operation performed on the source SQLite store.  `write` never
occurs in any trace the program produces; it is included so that the
read-only claim is about a type that could express a write. -/
inductive SrcOp where
  | openDb
  | query (table : String)
  | closeDb
  | write (table : String)
deriving DecidableEq, Repr

/-- Accumulator for the sequential `await` chain inside `main`'s `try`
block. -/
structure RunAcc where
  state : Supabase
  writes : List WriteOp
  logs : List LogLine
  src : List SrcOp
  thrown : Option String
deriving Repr

/-- One `await migrateX()` step: skipped when an earlier step already
threw; otherwise the table is read (recording the query; a read failure
throws) and the table migration runs. -/
def runStep {ρ : Type} (tbl : String) (readRes : Except String (List ρ))
    (mig : List ρ → Supabase → TRes) (acc : RunAcc) : RunAcc :=
  match acc.thrown with
  | some _ => acc
  | none =>
    match readRes with
    | .error e =>
      { acc with src := acc.src ++ [.query tbl], thrown := some e }
    | .ok rows =>
      let r := mig rows acc.state
      { state := r.state, writes := acc.writes ++ r.writes,
        logs := acc.logs ++ r.logs, src := acc.src ++ [.query tbl],
        thrown := r.thrown }

/-- The body of `main`'s `try` block: the six migrations in source
order. -/
def runMigration (err : ErrOracle) (db : SqliteDb) (st : Supabase) : RunAcc :=
  runStep "qr_scan_logs" db.qr_scan_logs (migrateQRScanLogs err)
    (runStep "attendance_status" db.attendance_status (migrateAttendance err)
      (runStep "registrations" db.registrations (migrateRegistrations err)
        (runStep "fests" db.fests (migrateFests err)
          (runStep "events" db.events (migrateEvents err)
            (runStep "users" db.users (migrateUsers err)
              ⟨st, [], [], [], none⟩)))))

/-- Outcome of one whole run of the script. -/
structure MainResult where
  /-- `some c`: the process called `process.exit(c)`. -/
  exitCode : Option Nat
  /-- Destination tables at the end. -/
  state : Supabase
  /-- Destination write requests submitted, in order. -/
  writes : List WriteOp
  /-- Table-migration log lines. -/
  logs : List LogLine
  /-- Trace of operations on the source SQLite store. -/
  src : List SrcOp
  /-- The error caught by `main`'s `catch`, if any. -/
  caught : Option String
  /-- Whether `./supabase-schema.sql` was written. -/
  schemaFileSaved : Bool
deriving Repr

/-- `main`: the SQLite handle is opened at module load; the schema SQL is
printed and saved to a local file; the operator is prompted.  Unless the
lowercased answer is `yes` or `y`, the process exits with status 0 having
read no table and written nothing.  Otherwise the six migrations run in
one `try`/`catch` (a thrown error is caught and logged, not re-thrown)
and the SQLite handle is closed. -/
def main (answer : String) (err : ErrOracle) (db : SqliteDb) (st : Supabase) :
    MainResult :=
  let low := jsToLower answer
  if low ≠ "yes" ∧ low ≠ "y" then
    { exitCode := some 0, state := st, writes := [], logs := [],
      src := [.openDb], caught := none, schemaFileSaved := true }
  else
    let r := runMigration err db st
    { exitCode := none, state := r.state, writes := r.writes, logs := r.logs,
      src := .openDb :: r.src ++ [.closeDb], caught := r.thrown,
      schemaFileSaved := true }

/-! ## Declared destination columns

The data columns of each destination table from `createTablesSQL`
(excluding the server-generated `id UUID PRIMARY KEY DEFAULT
gen_random_uuid()`), in declaration order.  The source SQLite schema file
is not part of the repository; per the specification the source tables
carry these same logical columns, so these lists also stand for the
source row shape. -/

/-- Data columns of the `users` table. -/
def usersColumns : List String :=
  ["auth_uuid", "email", "name", "avatar_url", "is_organiser", "course",
   "register_number", "created_at"]

/-- Data columns of the `events` table. -/
def eventsColumns : List String :=
  ["event_id", "title", "description", "event_date", "event_time",
   "end_date", "venue", "category", "department_access",
   "claims_applicable", "registration_fee", "participants_per_team",
   "max_participants", "event_image_url", "banner_url", "pdf_url", "rules",
   "schedule", "prizes", "organizer_email", "organizer_phone",
   "whatsapp_invite_link", "organizing_dept", "fest", "created_by",
   "created_at", "updated_at", "registration_deadline",
   "total_participants"]

/-- Data columns of the `fests` table. -/
def festsColumns : List String :=
  ["fest_id", "fest_title", "description", "opening_date", "closing_date",
   "fest_image_url", "organizing_dept", "department_access", "category",
   "contact_email", "contact_phone", "event_heads", "created_by",
   "created_at"]

/-- Data columns of the `registrations` table. -/
def registrationsColumns : List String :=
  ["registration_id", "event_id", "user_email", "registration_type",
   "individual_name", "individual_email", "individual_register_number",
   "team_name", "team_leader_name", "team_leader_email",
   "team_leader_register_number", "teammates", "created_at",
   "qr_code_data", "qr_code_generated_at"]

/-- Data columns of the `attendance_status` table. -/
def attendanceColumns : List String :=
  ["registration_id", "event_id", "status", "marked_at", "marked_by"]

/-- Data columns of the `qr_scan_logs` table. -/
def qrScanLogsColumns : List String :=
  ["registration_id", "event_id", "scanned_by", "scan_timestamp",
   "scan_result", "scanner_info"]

/-! ## Key-based views of a destination table -/

/-- Upserting `recs` left-to-right into table `t`. -/
def runUpserts (key : String) (recs : List Record) (t : List Record) : List Record :=
  recs.foldl (fun acc r => upsertRec key r acc) t

/-- Number of rows of `t` whose `key`-column value is `kv`. -/
def countKey (key : String) (kv : Option DVal) (t : List Record) : Nat :=
  t.countP (fun x => decide (x.lookup key = kv))

/-- The first row of `t` whose `key`-column value is `kv`. -/
def getByKey (key : String) (kv : Option DVal) (t : List Record) : Option Record :=
  t.find? (fun x => decide (x.lookup key = kv))

/-- The last record in `recs` whose `key`-column value is `kv`
(the record a last-write-wins upsert sequence leaves behind). -/
def lastWith (key : String) (kv : Option DVal) (recs : List Record) : Option Record :=
  recs.reverse.find? (fun r => decide (r.lookup key = kv))

/-- The destination payloads a list of event rows maps to (rows whose
mapping throws contribute nothing). -/
def eventPayloads (rows : List EventRow) : List Record :=
  rows.filterMap (fun e => (mapEvent e).toOption)

/-- The destination payloads a list of fest rows maps to. -/
def festPayloads (rows : List FestRow) : List Record :=
  rows.filterMap (fun f => (mapFest f).toOption)

/-- The destination payloads a list of registration rows maps to. -/
def regPayloads (rows : List RegRow) : List Record :=
  rows.filterMap (fun g => (mapRegistration g).toOption)

/-- The destination payloads a list of scan-log rows maps to. -/
def qrPayloads (rows : List QRRow) : List Record :=
  rows.filterMap (fun l => (mapQRScanLog l).toOption)

/-! ## Concrete fixture rows (used to instantiate theorems) -/

/-- A user row with the given `email`, `name` and `is_organiser` values,
all other columns NULL. -/
def sampleUser (email name organiser : SqlVal) : UserRow :=
  ⟨.null, email, name, .null, organiser, .null, .null, .null⟩

/-- An event row with the given `event_id`, `title`, `claims_applicable`
and `rules` values, all other columns NULL. -/
def sampleEvent (id title claims rules : SqlVal) : EventRow :=
  ⟨id, title, .null, .null, .null, .null, .null, .null, .null, claims,
   .null, .null, .null, .null, .null, .null, rules, .null, .null, .null,
   .null, .null, .null, .null, .null, .null, .null, .null, .null⟩

/-- A fest row with the given `fest_id` and `fest_title`, all other
columns NULL. -/
def sampleFest (id title : SqlVal) : FestRow :=
  ⟨id, title, .null, .null, .null, .null, .null, .null, .null, .null,
   .null, .null, .null, .null⟩

/-- A registration row with the given `registration_id` and `teammates`
values, all other columns NULL. -/
def sampleReg (id teammates : SqlVal) : RegRow :=
  ⟨id, .null, .null, .null, .null, .null, .null, .null, .null, .null,
   .null, teammates, .null, .null, .null⟩

/-- An attendance row with the given `registration_id`, all other columns
NULL. -/
def sampleAtt (rid : SqlVal) : AttRow :=
  ⟨rid, .null, .null, .null, .null⟩

/-- A scan-log row with the given `scan_result` and `scanner_info`, all
other columns NULL. -/
def sampleQR (res info : SqlVal) : QRRow :=
  ⟨.null, .null, .null, .null, res, info⟩

/-- A source database whose six table reads all succeed with the given
rows. -/
def dbOf (us : List UserRow) (es : List EventRow) (fs : List FestRow)
    (rs : List RegRow) (as_ : List AttRow) (qs : List QRRow) : SqliteDb :=
  ⟨.ok us, .ok es, .ok fs, .ok rs, .ok as_, .ok qs⟩

section UpsertLemmas

variable (key : String)

theorem countKey_nil (kv : Option DVal) : countKey key kv [] = 0 := rfl

theorem countKey_cons (kv : Option DVal) (x : Record) (t : List Record) :
    countKey key kv (x :: t) =
      countKey key kv t + (if x.lookup key = kv then 1 else 0) := by
  simp [countKey, List.countP_cons]

/-- Upserting one record either appends it (its key was absent) or
overwrites in place (all per-key counts unchanged). -/
theorem countKey_upsertRec (r : Record) (t : List Record) (kv : Option DVal) :
    countKey key kv (upsertRec key r t) =
      if countKey key (r.lookup key) t = 0
      then countKey key kv t + (if r.lookup key = kv then 1 else 0)
      else countKey key kv t := by
  induction t with
  | nil => simp [upsertRec, countKey_nil, countKey_cons]
  | cons x xs ih =>
    by_cases hx : x.lookup key = r.lookup key
    · have h0 : ¬ countKey key (r.lookup key) (x :: xs) = 0 := by
        rw [countKey_cons]
        simp [hx]
      rw [upsertRec, if_pos hx, if_neg h0, countKey_cons, countKey_cons, hx]
    · rw [upsertRec, if_neg hx]
      simp only [countKey_cons, ih, hx, if_false]
      split_ifs <;> omega

/-- Upserting preserves "at most one row per key value". -/
theorem countKey_upsertRec_le_one (r : Record) (t : List Record)
    (H : ∀ w, countKey key w t ≤ 1) :
    ∀ w, countKey key w (upsertRec key r t) ≤ 1 := by
  intro w
  rw [countKey_upsertRec]
  by_cases h0 : countKey key (r.lookup key) t = 0
  · rw [if_pos h0]
    by_cases hw : r.lookup key = w
    · subst hw; simp [h0]
    · simpa [hw] using H w
  · rw [if_neg h0]; exact H w

/-- Under "at most one row per key value", one upsert lands the payload's
key at count one and leaves other counts alone. -/
theorem countKey_upsertRec_of_le_one (r : Record) (t : List Record)
    (kv : Option DVal) (H : ∀ w, countKey key w t ≤ 1) :
    countKey key kv (upsertRec key r t) =
      if r.lookup key = kv then 1 else countKey key kv t := by
  rw [countKey_upsertRec]
  by_cases hr : r.lookup key = kv
  · subst hr
    have h1 := H (r.lookup key)
    by_cases h0 : countKey key (r.lookup key) t = 0
    · rw [if_pos h0, if_pos rfl, if_pos rfl, h0]
    · rw [if_neg h0, if_pos rfl]
      omega
  · by_cases h0 : countKey key (r.lookup key) t = 0
    · rw [if_pos h0, if_neg hr, if_neg hr]
      omega
    · rw [if_neg h0, if_neg hr]

/-- Per-key row count after a run of upserts: keys occurring in `recs`
end with exactly one row; other keys keep their count. -/
theorem countKey_runUpserts (recs : List Record) (t : List Record)
    (kv : Option DVal) (H : ∀ w, countKey key w t ≤ 1) :
    countKey key kv (runUpserts key recs t) =
      if 0 < recs.countP (fun r => decide (r.lookup key = kv)) then 1
      else countKey key kv t := by
  induction recs generalizing t with
  | nil => simp [runUpserts]
  | cons r rest ih =>
    have step : runUpserts key (r :: rest) t =
        runUpserts key rest (upsertRec key r t) := rfl
    rw [step, ih (upsertRec key r t) (countKey_upsertRec_le_one key r t H),
      countKey_upsertRec_of_le_one key r t kv H, List.countP_cons]
    by_cases hr : r.lookup key = kv
    · have hpos : 0 < rest.countP (fun x => decide (x.lookup key = kv)) +
          (if (fun x => decide (x.lookup key = kv)) r then 1 else 0) := by
        simp [hr]
      rw [if_pos hpos]
      split_ifs <;> simp_all
    · have heq : rest.countP (fun x => decide (x.lookup key = kv)) +
          (if (fun x => decide (x.lookup key = kv)) r then 1 else 0) =
          rest.countP (fun x => decide (x.lookup key = kv)) := by
        simp [hr]
      rw [heq, if_neg hr]

/-- The first row with a given key value after one upsert. -/
theorem getByKey_upsertRec (r : Record) (t : List Record) (kv : Option DVal) :
    getByKey key kv (upsertRec key r t) =
      if r.lookup key = kv then some r else getByKey key kv t := by
  induction t with
  | nil =>
    by_cases hr : r.lookup key = kv
    · rw [if_pos hr]
      exact List.find?_cons_of_pos _ (by simpa using hr)
    · rw [if_neg hr]
      show List.find? _ [r] = List.find? _ []
      rw [List.find?_cons_of_neg _ (by simpa using hr)]
  | cons x xs ih =>
    by_cases hx : x.lookup key = r.lookup key
    · rw [upsertRec, if_pos hx]
      by_cases hr : r.lookup key = kv
      · rw [if_pos hr]
        exact List.find?_cons_of_pos _ (by simpa using hr)
      · have hxkv : ¬ x.lookup key = kv := fun h => hr (hx.symm.trans h)
        rw [if_neg hr]
        show List.find? _ (r :: xs) = List.find? _ (x :: xs)
        rw [List.find?_cons_of_neg _ (by simpa using hr),
          List.find?_cons_of_neg _ (by simpa using hxkv)]
    · rw [upsertRec, if_neg hx]
      by_cases hxkv : x.lookup key = kv
      · have hr : ¬ r.lookup key = kv := fun h => hx (hxkv.trans h.symm)
        rw [if_neg hr]
        show List.find? _ (x :: upsertRec key r xs) = List.find? _ (x :: xs)
        rw [List.find?_cons_of_pos _ (by simpa using hxkv),
          List.find?_cons_of_pos _ (by simpa using hxkv)]
      · show List.find? _ (x :: upsertRec key r xs) = _
        rw [List.find?_cons_of_neg _ (by simpa using hxkv)]
        show getByKey key kv (upsertRec key r xs) = _
        rw [ih]
        by_cases hr : r.lookup key = kv
        · rw [if_pos hr, if_pos hr]
        · rw [if_neg hr, if_neg hr]
          show _ = List.find? _ (x :: xs)
          rw [List.find?_cons_of_neg _ (by simpa using hxkv)]
          rfl

/-- The first row with a given key value after a run of upserts is the
last upserted record with that key value, else whatever the initial
table held. -/
theorem getByKey_runUpserts (recs : List Record) (t : List Record)
    (kv : Option DVal) :
    getByKey key kv (runUpserts key recs t) =
      (lastWith key kv recs).elim (getByKey key kv t) some := by
  induction recs generalizing t with
  | nil => simp [runUpserts, lastWith]
  | cons r rest ih =>
    have step : runUpserts key (r :: rest) t =
        runUpserts key rest (upsertRec key r t) := rfl
    rw [step, ih]
    have hsplit : lastWith key kv (r :: rest) =
        (lastWith key kv rest).elim
          (if r.lookup key = kv then some r else none) some := by
      simp only [lastWith, List.reverse_cons, List.find?_append]
      cases h : List.find? (fun x => decide (x.lookup key = kv)) rest.reverse with
      | none =>
        simp only [h, Option.elim]
        by_cases hr : r.lookup key = kv <;> simp [List.find?, hr]
      | some v => simp [h, Option.elim]
    rw [hsplit]
    cases h : lastWith key kv rest with
    | none =>
      simp only [h, Option.elim, getByKey_upsertRec]
      by_cases hr : r.lookup key = kv <;> simp [hr]
    | some v => simp [h, Option.elim]

end UpsertLemmas

/-! ## Characterisations of the six table loops -/

section LoopLemmas

theorem usersLoop_thrown (err : ErrOracle) (rows : List UserRow) (st : Supabase) :
    (usersLoop err rows st).thrown = none := by
  induction rows generalizing st with
  | nil => rfl
  | cons u rest ih =>
    simp only [usersLoop]
    cases h : err "users" (mapUser u) <;> simp [ih, h]

theorem migrateUsers_thrown (err : ErrOracle) (rows : List UserRow) (st : Supabase) :
    (migrateUsers err rows st).thrown = none := by
  by_cases h : rows.length = 0 <;> simp [migrateUsers, h, usersLoop_thrown]

/-- Every user row is submitted as an upsert keyed on `email`, whatever
the destination answers. -/
theorem usersLoop_writes (err : ErrOracle) (rows : List UserRow) (st : Supabase) :
    (usersLoop err rows st).writes =
      rows.map (fun u => WriteOp.upsert "users" (mapUser u) "email") := by
  induction rows generalizing st with
  | nil => rfl
  | cons u rest ih =>
    simp only [usersLoop]
    cases h : err "users" (mapUser u) <;> simp [ih, h]

/-- Per-row log lines of the users loop: a failure line labelled with the
row's email and the error message for rows the destination rejects, a
success line otherwise. -/
theorem usersLoop_logs (err : ErrOracle) (rows : List UserRow) (st : Supabase) :
    (usersLoop err rows st).logs =
      rows.map (fun u =>
        match err "users" (mapUser u) with
        | some msg => LogLine.failure (jsShow u.email) msg
        | none => LogLine.success (jsShow u.email)) := by
  induction rows generalizing st with
  | nil => rfl
  | cons u rest ih =>
    simp only [usersLoop]
    cases h : err "users" (mapUser u) <;> simp [ih, h]

theorem usersLoop_state_noErr (rows : List UserRow) (st : Supabase) :
    (usersLoop noErr rows st).state =
      { st with users := runUpserts "email" (rows.map mapUser) st.users } := by
  induction rows generalizing st with
  | nil => simp [usersLoop, runUpserts]
  | cons u rest ih => simp [usersLoop, noErr, ih, runUpserts]

theorem migrateUsers_state_noErr (rows : List UserRow) (st : Supabase) :
    (migrateUsers noErr rows st).state =
      { st with users := runUpserts "email" (rows.map mapUser) st.users } := by
  by_cases h : rows.length = 0
  · have hnil : rows = [] := List.length_eq_zero.mp h
    subst hnil
    simp [migrateUsers, runUpserts]
  · simp [migrateUsers, h, usersLoop_state_noErr]

theorem eventsLoop_state_noErr (rows : List EventRow) (st : Supabase)
    (hok : ∀ e ∈ rows, ((mapEvent e).toOption.isSome : Bool)) :
    (eventsLoop noErr rows st).state =
      { st with events := runUpserts "event_id" (eventPayloads rows) st.events } := by
  induction rows generalizing st with
  | nil => simp [eventsLoop, eventPayloads, runUpserts]
  | cons e rest ih =>
    cases hme : mapEvent e with
    | error msg =>
      exact absurd (hok e (by simp)) (by simp [hme, Except.toOption])
    | ok payload =>
      have hrest : ∀ x ∈ rest, ((mapEvent x).toOption.isSome : Bool) :=
        fun x hx => hok x (by simp [hx])
      simp [eventsLoop, hme, noErr, ih _ hrest, eventPayloads, runUpserts, List.filterMap_cons, Except.toOption]

theorem migrateEvents_state_noErr (rows : List EventRow) (st : Supabase)
    (hok : ∀ e ∈ rows, ((mapEvent e).toOption.isSome : Bool)) :
    (migrateEvents noErr rows st).state =
      { st with events := runUpserts "event_id" (eventPayloads rows) st.events } := by
  by_cases h : rows.length = 0
  · have hnil : rows = [] := List.length_eq_zero.mp h
    subst hnil
    simp [migrateEvents, eventPayloads, runUpserts]
  · simp [migrateEvents, h, eventsLoop_state_noErr rows st hok]

theorem festsLoop_state_noErr (rows : List FestRow) (st : Supabase)
    (hok : ∀ f ∈ rows, ((mapFest f).toOption.isSome : Bool)) :
    (festsLoop noErr rows st).state =
      { st with fests := runUpserts "fest_id" (festPayloads rows) st.fests } := by
  induction rows generalizing st with
  | nil => simp [festsLoop, festPayloads, runUpserts]
  | cons f rest ih =>
    cases hmf : mapFest f with
    | error msg =>
      exact absurd (hok f (by simp)) (by simp [hmf, Except.toOption])
    | ok payload =>
      have hrest : ∀ x ∈ rest, ((mapFest x).toOption.isSome : Bool) :=
        fun x hx => hok x (by simp [hx])
      simp [festsLoop, hmf, noErr, ih _ hrest, festPayloads, runUpserts, List.filterMap_cons, Except.toOption]

theorem migrateFests_state_noErr (rows : List FestRow) (st : Supabase)
    (hok : ∀ f ∈ rows, ((mapFest f).toOption.isSome : Bool)) :
    (migrateFests noErr rows st).state =
      { st with fests := runUpserts "fest_id" (festPayloads rows) st.fests } := by
  by_cases h : rows.length = 0
  · have hnil : rows = [] := List.length_eq_zero.mp h
    subst hnil
    simp [migrateFests, festPayloads, runUpserts]
  · simp [migrateFests, h, festsLoop_state_noErr rows st hok]

theorem registrationsLoop_state_noErr (rows : List RegRow) (st : Supabase)
    (hok : ∀ g ∈ rows, ((mapRegistration g).toOption.isSome : Bool)) :
    (registrationsLoop noErr rows st).state =
      { st with registrations :=
          runUpserts "registration_id" (regPayloads rows) st.registrations } := by
  induction rows generalizing st with
  | nil => simp [registrationsLoop, regPayloads, runUpserts]
  | cons g rest ih =>
    cases hmg : mapRegistration g with
    | error msg =>
      exact absurd (hok g (by simp)) (by simp [hmg, Except.toOption])
    | ok payload =>
      have hrest : ∀ x ∈ rest, ((mapRegistration x).toOption.isSome : Bool) :=
        fun x hx => hok x (by simp [hx])
      simp [registrationsLoop, hmg, noErr, ih _ hrest, regPayloads, runUpserts, List.filterMap_cons, Except.toOption]

theorem migrateRegistrations_state_noErr (rows : List RegRow) (st : Supabase)
    (hok : ∀ g ∈ rows, ((mapRegistration g).toOption.isSome : Bool)) :
    (migrateRegistrations noErr rows st).state =
      { st with registrations :=
          runUpserts "registration_id" (regPayloads rows) st.registrations } := by
  by_cases h : rows.length = 0
  · have hnil : rows = [] := List.length_eq_zero.mp h
    subst hnil
    simp [migrateRegistrations, regPayloads, runUpserts]
  · simp [migrateRegistrations, h, registrationsLoop_state_noErr rows st hok]

/-- Registration rows are each submitted (keyed on `registration_id`)
when their mapping succeeds, whatever the destination answers. -/
theorem registrationsLoop_writes (err : ErrOracle) (rows : List RegRow) (st : Supabase)
    (hok : ∀ g ∈ rows, ((mapRegistration g).toOption.isSome : Bool)) :
    (registrationsLoop err rows st).writes =
      rows.filterMap (fun g => (mapRegistration g).toOption.map
        (fun p => WriteOp.upsert "registrations" p "registration_id")) := by
  induction rows generalizing st with
  | nil => rfl
  | cons g rest ih =>
    cases hmg : mapRegistration g with
    | error msg =>
      exact absurd (hok g (by simp)) (by simp [hmg, Except.toOption])
    | ok payload =>
      have hrest : ∀ x ∈ rest, ((mapRegistration x).toOption.isSome : Bool) :=
        fun x hx => hok x (by simp [hx])
      simp only [registrationsLoop, hmg]
      cases h : err "registrations" payload <;>
        simp [ih _ hrest, hmg, h, List.filterMap_cons, Except.toOption]

/-- Per-row log lines of the registrations loop (when every mapping
succeeds): failures are labelled with the row's `registration_id`. -/
theorem registrationsLoop_logs (err : ErrOracle) (rows : List RegRow) (st : Supabase)
    (hok : ∀ g ∈ rows, ((mapRegistration g).toOption.isSome : Bool)) :
    (registrationsLoop err rows st).logs =
      rows.filterMap (fun g => (mapRegistration g).toOption.map
        (fun p =>
          match err "registrations" p with
          | some msg => LogLine.failure (jsShow g.registration_id) msg
          | none => LogLine.success (jsShow g.registration_id))) := by
  induction rows generalizing st with
  | nil => rfl
  | cons g rest ih =>
    cases hmg : mapRegistration g with
    | error msg =>
      exact absurd (hok g (by simp)) (by simp [hmg, Except.toOption])
    | ok payload =>
      have hrest : ∀ x ∈ rest, ((mapRegistration x).toOption.isSome : Bool) :=
        fun x hx => hok x (by simp [hx])
      simp only [registrationsLoop, hmg]
      cases h : err "registrations" payload <;>
        simp [ih _ hrest, hmg, h, List.filterMap_cons, Except.toOption]

theorem registrationsLoop_thrown (err : ErrOracle) (rows : List RegRow) (st : Supabase)
    (hok : ∀ g ∈ rows, ((mapRegistration g).toOption.isSome : Bool)) :
    (registrationsLoop err rows st).thrown = none := by
  induction rows generalizing st with
  | nil => rfl
  | cons g rest ih =>
    cases hmg : mapRegistration g with
    | error msg =>
      exact absurd (hok g (by simp)) (by simp [hmg, Except.toOption])
    | ok payload =>
      have hrest : ∀ x ∈ rest, ((mapRegistration x).toOption.isSome : Bool) :=
        fun x hx => hok x (by simp [hx])
      simp only [registrationsLoop, hmg]
      cases h : err "registrations" payload <;> simp [ih _ hrest, h]

/-- A registration row whose JSON decoding throws stops the loop: the
rows before it are each submitted, the throw is recorded, and nothing
after it is processed. -/
theorem registrationsLoop_throw (err : ErrOracle) (pre : List RegRow)
    (g : RegRow) (post : List RegRow) (st : Supabase) (e : String)
    (hok : ∀ x ∈ pre, ((mapRegistration x).toOption.isSome : Bool))
    (hg : mapRegistration g = .error e) :
    (registrationsLoop err (pre ++ g :: post) st).thrown = some e ∧
      (registrationsLoop err (pre ++ g :: post) st).writes.length = pre.length := by
  induction pre generalizing st with
  | nil => simp [registrationsLoop, hg]
  | cons x rest ih =>
    cases hmx : mapRegistration x with
    | error msg =>
      exact absurd (hok x (by simp)) (by simp [hmx, Except.toOption])
    | ok payload =>
      have hrest : ∀ y ∈ rest, ((mapRegistration y).toOption.isSome : Bool) :=
        fun y hy => hok y (by simp [hy])
      simp only [List.cons_append, registrationsLoop, hmx]
      cases h : err "registrations" payload with
      | some msg2 =>
        simp only [h]
        have hih := ih st hrest
        exact ⟨hih.1, by simpa using hih.2⟩
      | none =>
        simp only [h]
        have hih := ih
          { st with registrations := upsertRec "registration_id" payload st.registrations }
          hrest
        exact ⟨hih.1, by simpa using hih.2⟩

theorem attendanceLoop_state_noErr (rows : List AttRow) (st : Supabase) :
    (attendanceLoop noErr rows st).state =
      { st with attendance_status :=
          st.attendance_status ++ rows.map mapAttendance } := by
  induction rows generalizing st with
  | nil => simp [attendanceLoop]
  | cons a rest ih => simp [attendanceLoop, noErr, ih]

theorem migrateAttendance_state_noErr (rows : List AttRow) (st : Supabase) :
    (migrateAttendance noErr rows st).state =
      { st with attendance_status :=
          st.attendance_status ++ rows.map mapAttendance } := by
  by_cases h : rows.length = 0
  · have hnil : rows = [] := List.length_eq_zero.mp h
    subst hnil
    simp [migrateAttendance]
  · simp [migrateAttendance, h, attendanceLoop_state_noErr]

theorem qrScanLogsLoop_state_noErr (rows : List QRRow) (st : Supabase)
    (hok : ∀ l ∈ rows, ((mapQRScanLog l).toOption.isSome : Bool)) :
    (qrScanLogsLoop noErr rows st).state =
      { st with qr_scan_logs := st.qr_scan_logs ++ qrPayloads rows } := by
  induction rows generalizing st with
  | nil => simp [qrScanLogsLoop, qrPayloads]
  | cons l rest ih =>
    cases hml : mapQRScanLog l with
    | error msg =>
      exact absurd (hok l (by simp)) (by simp [hml, Except.toOption])
    | ok payload =>
      have hrest : ∀ x ∈ rest, ((mapQRScanLog x).toOption.isSome : Bool) :=
        fun x hx => hok x (by simp [hx])
      simp [qrScanLogsLoop, hml, noErr, ih _ hrest, qrPayloads, List.filterMap_cons, Except.toOption]

theorem migrateQRScanLogs_state_noErr (rows : List QRRow) (st : Supabase)
    (hok : ∀ l ∈ rows, ((mapQRScanLog l).toOption.isSome : Bool)) :
    (migrateQRScanLogs noErr rows st).state =
      { st with qr_scan_logs := st.qr_scan_logs ++ qrPayloads rows } := by
  by_cases h : rows.length = 0
  · have hnil : rows = [] := List.length_eq_zero.mp h
    subst hnil
    simp [migrateQRScanLogs, qrPayloads]
  · simp [migrateQRScanLogs, h, qrScanLogsLoop_state_noErr rows st hok]

end LoopLemmas

/-! ## Inversion of the fallible mappings -/

section MapInversion

/-- A successful event mapping decomposes into four successful JSON
decodes and the literal payload built from them. -/
theorem mapEvent_ok (e : EventRow) (p : Record) (h : mapEvent e = .ok p) :
    ∃ da ru sc pz,
      jsonField e.department_access = .ok da ∧ jsonField e.rules = .ok ru ∧
      jsonField e.schedule = .ok sc ∧ jsonField e.prizes = .ok pz ∧
      p = [("event_id", .fromSql e.event_id),
           ("title", .fromSql e.title),
           ("description", .fromSql e.description),
           ("event_date", .fromSql e.event_date),
           ("event_time", .fromSql e.event_time),
           ("end_date", .fromSql e.end_date),
           ("venue", .fromSql e.venue),
           ("category", .fromSql e.category),
           ("department_access", da),
           ("claims_applicable", .bool (jsStrictEqInt e.claims_applicable 1)),
           ("registration_fee", .fromSql e.registration_fee),
           ("participants_per_team", .fromSql e.participants_per_team),
           ("max_participants", .fromSql e.max_participants),
           ("event_image_url", .fromSql e.event_image_url),
           ("banner_url", .fromSql e.banner_url),
           ("pdf_url", .fromSql e.pdf_url),
           ("rules", ru),
           ("schedule", sc),
           ("prizes", pz),
           ("organizer_email", .fromSql e.organizer_email),
           ("organizer_phone", .fromSql e.organizer_phone),
           ("whatsapp_invite_link", .fromSql e.whatsapp_invite_link),
           ("organizing_dept", .fromSql e.organizing_dept),
           ("fest", .fromSql e.fest),
           ("created_by", .fromSql e.created_by),
           ("created_at", .fromSql e.created_at),
           ("updated_at", .fromSql e.updated_at),
           ("registration_deadline", .fromSql e.registration_deadline),
           ("total_participants",
             if jsTruthy e.total_participants then .fromSql e.total_participants
             else .fromSql (.int 0))] := by
  unfold mapEvent at h
  cases hda : jsonField e.department_access with
  | error m => rw [hda] at h; exact absurd h (by simp [Bind.bind, Except.bind])
  | ok da =>
    rw [hda] at h
    cases hru : jsonField e.rules with
    | error m => rw [hru] at h; exact absurd h (by simp [Bind.bind, Except.bind])
    | ok ru =>
      rw [hru] at h
      cases hsc : jsonField e.schedule with
      | error m => rw [hsc] at h; exact absurd h (by simp [Bind.bind, Except.bind])
      | ok sc =>
        rw [hsc] at h
        cases hpz : jsonField e.prizes with
        | error m => rw [hpz] at h; exact absurd h (by simp [Bind.bind, Except.bind])
        | ok pz =>
          rw [hpz] at h
          simp only [Bind.bind, Except.bind, pure, Except.pure, Except.ok.injEq] at h
          exact ⟨da, ru, sc, pz, rfl, rfl, rfl, rfl, h.symm⟩

/-- A successful fest mapping decomposes into two successful JSON decodes
and the literal payload built from them. -/
theorem mapFest_ok (f : FestRow) (p : Record) (h : mapFest f = .ok p) :
    ∃ da eh,
      jsonField f.department_access = .ok da ∧ jsonField f.event_heads = .ok eh ∧
      p = [("fest_id", .fromSql f.fest_id),
           ("fest_title", .fromSql f.fest_title),
           ("description", .fromSql f.description),
           ("opening_date", .fromSql f.opening_date),
           ("closing_date", .fromSql f.closing_date),
           ("fest_image_url", .fromSql f.fest_image_url),
           ("organizing_dept", .fromSql f.organizing_dept),
           ("department_access", da),
           ("category", .fromSql f.category),
           ("contact_email", .fromSql f.contact_email),
           ("contact_phone", .fromSql f.contact_phone),
           ("event_heads", eh),
           ("created_by", .fromSql f.created_by),
           ("created_at", .fromSql f.created_at)] := by
  unfold mapFest at h
  cases hda : jsonField f.department_access with
  | error m => rw [hda] at h; exact absurd h (by simp [Bind.bind, Except.bind])
  | ok da =>
    rw [hda] at h
    cases heh : jsonField f.event_heads with
    | error m => rw [heh] at h; exact absurd h (by simp [Bind.bind, Except.bind])
    | ok eh =>
      rw [heh] at h
      simp only [Bind.bind, Except.bind, pure, Except.pure, Except.ok.injEq] at h
      exact ⟨da, eh, rfl, rfl, h.symm⟩

/-- A successful registration mapping decomposes into two successful JSON
decodes and the literal payload built from them. -/
theorem mapRegistration_ok (g : RegRow) (p : Record)
    (h : mapRegistration g = .ok p) :
    ∃ tm qr,
      jsonField g.teammates = .ok tm ∧ jsonField g.qr_code_data = .ok qr ∧
      p = [("registration_id", .fromSql g.registration_id),
           ("event_id", .fromSql g.event_id),
           ("user_email", .fromSql g.user_email),
           ("registration_type", .fromSql g.registration_type),
           ("individual_name", .fromSql g.individual_name),
           ("individual_email", .fromSql g.individual_email),
           ("individual_register_number", .fromSql g.individual_register_number),
           ("team_name", .fromSql g.team_name),
           ("team_leader_name", .fromSql g.team_leader_name),
           ("team_leader_email", .fromSql g.team_leader_email),
           ("team_leader_register_number", .fromSql g.team_leader_register_number),
           ("teammates", tm),
           ("created_at", .fromSql g.created_at),
           ("qr_code_data", qr),
           ("qr_code_generated_at", .fromSql g.qr_code_generated_at)] := by
  unfold mapRegistration at h
  cases htm : jsonField g.teammates with
  | error m => rw [htm] at h; exact absurd h (by simp [Bind.bind, Except.bind])
  | ok tm =>
    rw [htm] at h
    cases hqr : jsonField g.qr_code_data with
    | error m => rw [hqr] at h; exact absurd h (by simp [Bind.bind, Except.bind])
    | ok qr =>
      rw [hqr] at h
      simp only [Bind.bind, Except.bind, pure, Except.pure, Except.ok.injEq] at h
      exact ⟨tm, qr, rfl, rfl, h.symm⟩

/-- A successful scan-log mapping decomposes into one successful JSON
decode and the literal payload built from it. -/
theorem mapQRScanLog_ok (l : QRRow) (p : Record)
    (h : mapQRScanLog l = .ok p) :
    ∃ si,
      jsonField l.scanner_info = .ok si ∧
      p = [("registration_id", .fromSql l.registration_id),
           ("event_id", .fromSql l.event_id),
           ("scanned_by", .fromSql l.scanned_by),
           ("scan_timestamp", .fromSql l.scan_timestamp),
           ("scan_result", .fromSql l.scan_result),
           ("scanner_info", si)] := by
  unfold mapQRScanLog at h
  cases hsi : jsonField l.scanner_info with
  | error m => rw [hsi] at h; exact absurd h (by simp [Bind.bind, Except.bind])
  | ok si =>
    rw [hsi] at h
    simp only [Bind.bind, Except.bind, pure, Except.pure, Except.ok.injEq] at h
    exact ⟨si, rfl, h.symm⟩

end MapInversion

/-! ## Orchestration helpers -/

section MainLemmas

/-- Every user row produces exactly one submitted upsert, also through
the `migrateUsers` wrapper. -/
theorem migrateUsers_writes (err : ErrOracle) (rows : List UserRow) (st : Supabase) :
    (migrateUsers err rows st).writes =
      rows.map (fun u => WriteOp.upsert "users" (mapUser u) "email") := by
  by_cases h : rows.length = 0
  · have hnil : rows = [] := List.length_eq_zero.mp h
    subst hnil
    rfl
  · simp [migrateUsers, h, usersLoop_writes]

/-- A migration step only appends `query` operations to the source
trace. -/
theorem runStep_src_queries {ρ : Type} (tbl : String)
    (readRes : Except String (List ρ)) (mig : List ρ → Supabase → TRes)
    (acc : RunAcc) (h : ∀ o ∈ acc.src, ∃ t, o = SrcOp.query t) :
    ∀ o ∈ (runStep tbl readRes mig acc).src, ∃ t, o = SrcOp.query t := by
  unfold runStep
  cases ht : acc.thrown with
  | some e => exact h
  | none =>
    cases readRes with
    | error e =>
      intro o ho
      simp only at ho
      rcases List.mem_append.mp ho with hl | hr
      · exact h o hl
      · exact ⟨tbl, List.mem_singleton.mp hr⟩
    | ok rows =>
      intro o ho
      simp only at ho
      rcases List.mem_append.mp ho with hl | hr
      · exact h o hl
      · exact ⟨tbl, List.mem_singleton.mp hr⟩

/-- The whole migration phase touches the source only through
whole-table `SELECT` queries. -/
theorem runMigration_src_queries (err : ErrOracle) (db : SqliteDb) (st : Supabase) :
    ∀ o ∈ (runMigration err db st).src, ∃ t, o = SrcOp.query t := by
  unfold runMigration
  refine runStep_src_queries _ _ _ _
    (runStep_src_queries _ _ _ _
      (runStep_src_queries _ _ _ _
        (runStep_src_queries _ _ _ _
          (runStep_src_queries _ _ _ _
            (runStep_src_queries _ _ _ _ ?_)))))
  intro o ho
  simp at ho

/-- The canonical shape of a natural-keyed destination table after
running the same upsert sequence twice from empty: one row per distinct
key value, holding the last upserted record with that key. -/
theorem twice_upserts_canonical (key : String) (recs : List Record)
    (kv : Option DVal) :
    countKey key kv (runUpserts key recs (runUpserts key recs [])) =
      (if 0 < recs.countP (fun p => decide (p.lookup key = kv)) then 1 else 0)
    ∧ getByKey key kv (runUpserts key recs (runUpserts key recs [])) =
      lastWith key kv recs := by
  have H0 : ∀ w, countKey key w ([] : List Record) ≤ 1 := by
    intro w; simp [countKey]
  have H1 : ∀ w, countKey key w (runUpserts key recs []) ≤ 1 := by
    intro w
    rw [countKey_runUpserts key recs [] w H0]
    split_ifs <;> simp [countKey]
  constructor
  · rw [countKey_runUpserts key recs _ kv H1, countKey_runUpserts key recs [] kv H0]
    split_ifs <;> simp [countKey]
  · rw [getByKey_runUpserts, getByKey_runUpserts]
    cases h : lastWith key kv recs <;> simp [h, getByKey]

end MainLemmas

/-! ## The claims -/

/-- **C5**: For every table migration, a source table with zero rows
yields zero destination writes, a "nothing to migrate" report, an
unchanged destination, and an immediate error-free return. -/
theorem empty_table_noop (err : ErrOracle) (st : Supabase) :
    migrateUsers err [] st = ⟨st, [], [.info "No users to migrate"], none⟩
    ∧ migrateEvents err [] st = ⟨st, [], [.info "No events to migrate"], none⟩
    ∧ migrateFests err [] st = ⟨st, [], [.info "No fests to migrate"], none⟩
    ∧ migrateRegistrations err [] st =
        ⟨st, [], [.info "No registrations to migrate"], none⟩
    ∧ migrateAttendance err [] st =
        ⟨st, [], [.info "No attendance records to migrate"], none⟩
    ∧ migrateQRScanLogs err [] st =
        ⟨st, [], [.info "No QR scan logs to migrate"], none⟩ :=
  ⟨rfl, rfl, rfl, rfl, rfl, rfl⟩

/-- **C4**: 0/1-integer boolean columns (`users.is_organiser`,
`events.claims_applicable`) are coerced by strict equality to the number
1, not by truthiness: 1 maps to `true`, 0 maps to `false`, and any value
other than the number 1 maps to `false`. -/
theorem boolean_coercion_eq_one :
    (∀ u : UserRow, (mapUser u).lookup "is_organiser" =
        some (.bool (jsStrictEqInt u.is_organiser 1)))
    ∧ (∀ (e : EventRow) (p : Record), mapEvent e = .ok p →
        p.lookup "claims_applicable" =
          some (.bool (jsStrictEqInt e.claims_applicable 1)))
    ∧ jsStrictEqInt (.int 1) 1 = true
    ∧ jsStrictEqInt (.int 0) 1 = false
    ∧ (∀ v : SqlVal, v ≠ .int 1 → v ≠ .real 1 → jsStrictEqInt v 1 = false) := by
  refine ⟨fun u => rfl, ?_, rfl, rfl, ?_⟩
  · intro e p h
    obtain ⟨da, ru, sc, pz, _, _, _, _, hp⟩ := mapEvent_ok e p h
    subst hp
    rfl
  · intro v h1 h2
    cases v with
    | null => rfl
    | int n =>
      have hn : n ≠ 1 := fun hc => h1 (by rw [hc])
      simp [jsStrictEqInt, hn]
    | real x =>
      have hx : x ≠ 1 := fun hc => h2 (by rw [hc])
      simpa [jsStrictEqInt] using hx
    | text s => rfl

/-- **C4 witness**: the number 2 (neither 0 nor 1) coerces to `false`
(truthiness would give `true`), and a concrete event with
`claims_applicable = 0` maps it to `false`. -/
theorem boolean_coercion_eq_one_witness :
    jsStrictEqInt (.int 2) 1 = false ∧ jsStrictEqInt (.int 1) 1 = true :=
  ⟨boolean_coercion_eq_one.2.2.2.2 (.int 2) (by decide) (by decide),
   boolean_coercion_eq_one.2.2.1⟩

/-- **C3**: JSON-encoded text columns are decoded by the field mapping;
a null or empty source value yields `null` without attempting to decode;
a non-empty value is passed to `JSON.parse`; and each mapped record holds
exactly the decode's result in the corresponding field. -/
theorem json_column_decoding :
    jsonField .null = .ok .null
    ∧ jsonField (.text "") = .ok .null
    ∧ (∀ s : String, s ≠ "" → jsonField (.text s) = (parseJson s).map DVal.json)
    ∧ (∀ (e : EventRow) (p : Record), mapEvent e = .ok p →
        p.lookup "department_access" = (jsonField e.department_access).toOption
        ∧ p.lookup "rules" = (jsonField e.rules).toOption
        ∧ p.lookup "schedule" = (jsonField e.schedule).toOption
        ∧ p.lookup "prizes" = (jsonField e.prizes).toOption)
    ∧ (∀ (g : RegRow) (p : Record), mapRegistration g = .ok p →
        p.lookup "teammates" = (jsonField g.teammates).toOption
        ∧ p.lookup "qr_code_data" = (jsonField g.qr_code_data).toOption) := by
  refine ⟨rfl, rfl, ?_, ?_, ?_⟩
  · intro s hs
    simp [jsonField, jsTruthy, jsShow, hs]
  · intro e p h
    obtain ⟨da, ru, sc, pz, hda, hru, hsc, hpz, hp⟩ := mapEvent_ok e p h
    subst hp
    exact ⟨by rw [hda]; rfl, by rw [hru]; rfl, by rw [hsc]; rfl, by rw [hpz]; rfl⟩
  · intro g p h
    obtain ⟨tm, qr, htm, hqr, hp⟩ := mapRegistration_ok g p h
    subst hp
    exact ⟨by rw [htm]; rfl, by rw [hqr]; rfl⟩

/-- **C3 witness**: the source text `'{"a":1}'` decodes to the structured
object `{a: 1}`, and a concrete registration row carrying it in
`teammates` maps that field to the decoded object. -/
theorem json_column_decoding_witness :
    jsonField (.text "\x7b\"a\":1\x7d") =
      .ok (.json (.obj (.cons "a" (.num 1) .nil)))
    ∧ [("registration_id", DVal.fromSql (.text "R1")),
       ("event_id", DVal.fromSql .null),
       ("user_email", DVal.fromSql .null),
       ("registration_type", DVal.fromSql .null),
       ("individual_name", DVal.fromSql .null),
       ("individual_email", DVal.fromSql .null),
       ("individual_register_number", DVal.fromSql .null),
       ("team_name", DVal.fromSql .null),
       ("team_leader_name", DVal.fromSql .null),
       ("team_leader_email", DVal.fromSql .null),
       ("team_leader_register_number", DVal.fromSql .null),
       ("teammates", DVal.json (.obj (.cons "a" (.num 1) .nil))),
       ("created_at", DVal.fromSql .null),
       ("qr_code_data", DVal.null),
       ("qr_code_generated_at", DVal.fromSql .null)].lookup "teammates" =
      (jsonField (sampleReg (.text "R1") (.text "\x7b\"a\":1\x7d")).teammates).toOption :=
  ⟨(json_column_decoding.2.2.1 "\x7b\"a\":1\x7d" (by decide)).trans (by decide),
   (json_column_decoding.2.2.2.2 (sampleReg (.text "R1") (.text "\x7b\"a\":1\x7d"))
      _ (by decide)).1⟩

/-- **C10**: unless the operator's answer, lowercased, is `yes` or `y`,
the process exits with status 0 without reading any source table row and
without submitting any destination write. -/
theorem confirmation_gate (answer : String) (err : ErrOracle) (db : SqliteDb)
    (st : Supabase) (h1 : jsToLower answer ≠ "yes") (h2 : jsToLower answer ≠ "y") :
    (main answer err db st).exitCode = some 0
    ∧ (main answer err db st).writes = []
    ∧ (main answer err db st).state = st
    ∧ ∀ t, SrcOp.query t ∉ (main answer err db st).src := by
  have hm : main answer err db st =
      { exitCode := some 0, state := st, writes := [], logs := [],
        src := [.openDb], caught := none, schemaFileSaved := true } := by
    unfold main
    rw [if_pos ⟨h1, h2⟩]
  rw [hm]
  refine ⟨rfl, rfl, rfl, ?_⟩
  intro t ht
  simp at ht

/-- **C10 witness**: answering "no" exits with status 0, no reads, no
writes. -/
theorem confirmation_gate_witness :
    (main "no" noErr (dbOf [] [] [] [] [] []) emptyDb).exitCode = some 0
    ∧ (main "no" noErr (dbOf [] [] [] [] [] []) emptyDb).writes = []
    ∧ SrcOp.query "users" ∉ (main "no" noErr (dbOf [] [] [] [] [] []) emptyDb).src :=
  ⟨(confirmation_gate "no" noErr (dbOf [] [] [] [] [] []) emptyDb
      (by decide) (by decide)).1,
   (confirmation_gate "no" noErr (dbOf [] [] [] [] [] []) emptyDb
      (by decide) (by decide)).2.1,
   (confirmation_gate "no" noErr (dbOf [] [] [] [] [] []) emptyDb
      (by decide) (by decide)).2.2.2 "users"⟩

/-- **C6**: `attendance_status` and `qr_scan_logs` are written with plain
inserts carrying no conflict key, so running their migration twice on an
unchanged source leaves each mapped source row in the destination twice
(no deduplication). -/
theorem append_only_tables_duplicate :
    (∀ rows : List AttRow,
      (migrateAttendance noErr rows
          (migrateAttendance noErr rows emptyDb).state).state.attendance_status
        = rows.map mapAttendance ++ rows.map mapAttendance
      ∧ ∀ p : Record,
          ((migrateAttendance noErr rows
              (migrateAttendance noErr rows emptyDb).state).state.attendance_status).count p
            = 2 * (rows.map mapAttendance).count p)
    ∧ (∀ rows : List QRRow,
      (∀ l ∈ rows, ((mapQRScanLog l).toOption.isSome : Bool)) →
      (migrateQRScanLogs noErr rows
          (migrateQRScanLogs noErr rows emptyDb).state).state.qr_scan_logs
        = qrPayloads rows ++ qrPayloads rows
      ∧ ∀ p : Record,
          ((migrateQRScanLogs noErr rows
              (migrateQRScanLogs noErr rows emptyDb).state).state.qr_scan_logs).count p
            = 2 * (qrPayloads rows).count p) := by
  constructor
  · intro rows
    have h2 : (migrateAttendance noErr rows
        (migrateAttendance noErr rows emptyDb).state).state.attendance_status
        = rows.map mapAttendance ++ rows.map mapAttendance := by
      rw [migrateAttendance_state_noErr rows
          (migrateAttendance noErr rows emptyDb).state,
        migrateAttendance_state_noErr rows emptyDb]
      simp [emptyDb]
    exact ⟨h2, fun p => by rw [h2, List.count_append]; omega⟩
  · intro rows hok
    have h2 : (migrateQRScanLogs noErr rows
        (migrateQRScanLogs noErr rows emptyDb).state).state.qr_scan_logs
        = qrPayloads rows ++ qrPayloads rows := by
      rw [migrateQRScanLogs_state_noErr rows
          (migrateQRScanLogs noErr rows emptyDb).state hok,
        migrateQRScanLogs_state_noErr rows emptyDb hok]
      simp [emptyDb]
    exact ⟨h2, fun p => by rw [h2, List.count_append]; omega⟩

/-- **C6 witness**: one concrete scan-log row, migrated twice, appears
twice in the destination. -/
theorem append_only_tables_duplicate_witness :
    (migrateQRScanLogs noErr [sampleQR (.text "valid") .null]
        (migrateQRScanLogs noErr [sampleQR (.text "valid") .null] emptyDb).state).state.qr_scan_logs
      = qrPayloads [sampleQR (.text "valid") .null] ++
        qrPayloads [sampleQR (.text "valid") .null]
    ∧ ((migrateQRScanLogs noErr [sampleQR (.text "valid") .null]
        (migrateQRScanLogs noErr [sampleQR (.text "valid") .null] emptyDb).state).state.qr_scan_logs).count
        [("registration_id", DVal.fromSql .null),
         ("event_id", DVal.fromSql .null),
         ("scanned_by", DVal.fromSql .null),
         ("scan_timestamp", DVal.fromSql .null),
         ("scan_result", DVal.fromSql (.text "valid")),
         ("scanner_info", DVal.null)]
      = 2 :=
  ⟨(append_only_tables_duplicate.2 [sampleQR (.text "valid") .null] (by decide)).1,
   ((append_only_tables_duplicate.2 [sampleQR (.text "valid") .null] (by decide)).2
      [("registration_id", DVal.fromSql .null),
       ("event_id", DVal.fromSql .null),
       ("scanned_by", DVal.fromSql .null),
       ("scan_timestamp", DVal.fromSql .null),
       ("scan_result", DVal.fromSql (.text "valid")),
       ("scanner_info", DVal.null)]).trans (by decide)⟩

/-- **C8 counterexample**: the destination `users` schema declares the
data column `register_number`, but the users field mapping drops it — no
mapped user record carries a `register_number` field. -/
theorem field_mapping_total_cex :
    "register_number" ∈ usersColumns
    ∧ "register_number" ∉ (mapUser (sampleUser .null .null .null)).map Prod.fst := by
  exact ⟨by decide, by decide⟩

/-- **C8 (amended)**: the field mapping is total and fixed for
events, fests, registrations, attendance_status and qr_scan_logs — each
mapped record's fields are exactly the table's declared data columns —
but the users mapping drops `register_number`: a mapped user record's
fields are the users data columns with `register_number` removed. -/
theorem field_mapping_fixed_columns :
    (∀ u : UserRow,
      (mapUser u).map Prod.fst = usersColumns.erase "register_number")
    ∧ (∀ (e : EventRow) (p : Record), mapEvent e = .ok p →
        p.map Prod.fst = eventsColumns)
    ∧ (∀ (f : FestRow) (p : Record), mapFest f = .ok p →
        p.map Prod.fst = festsColumns)
    ∧ (∀ (g : RegRow) (p : Record), mapRegistration g = .ok p →
        p.map Prod.fst = registrationsColumns)
    ∧ (∀ a : AttRow, (mapAttendance a).map Prod.fst = attendanceColumns)
    ∧ (∀ (l : QRRow) (p : Record), mapQRScanLog l = .ok p →
        p.map Prod.fst = qrScanLogsColumns) := by
  refine ⟨fun u => rfl, ?_, ?_, ?_, fun a => rfl, ?_⟩
  · intro e p h
    obtain ⟨da, ru, sc, pz, _, _, _, _, hp⟩ := mapEvent_ok e p h
    subst hp
    rfl
  · intro f p h
    obtain ⟨da, eh, _, _, hp⟩ := mapFest_ok f p h
    subst hp
    rfl
  · intro g p h
    obtain ⟨tm, qr, _, _, hp⟩ := mapRegistration_ok g p h
    subst hp
    rfl
  · intro l p h
    obtain ⟨si, _, hp⟩ := mapQRScanLog_ok l p h
    subst hp
    rfl

/-- **C8 witness**: a concrete scan-log row maps to a record whose field
names are exactly the declared `qr_scan_logs` data columns. -/
theorem field_mapping_fixed_columns_witness :
    ([("registration_id", DVal.fromSql .null),
      ("event_id", DVal.fromSql .null),
      ("scanned_by", DVal.fromSql .null),
      ("scan_timestamp", DVal.fromSql .null),
      ("scan_result", DVal.fromSql .null),
      ("scanner_info", DVal.null)] : Record).map Prod.fst = qrScanLogsColumns :=
  field_mapping_fixed_columns.2.2.2.2.2 (sampleQR .null .null) _ (by decide)

/-- **C2 counterexample**: three registration rows where only the second
fails (its `teammates` column holds undecodable JSON): only the first row
is ever submitted — the third row's write is prevented, the failure is a
thrown exception rather than a caught-and-logged one.  Also, a failing
event write is logged with the row's title, not its `event_id` natural
key. -/
theorem per_row_failure_isolation_cex :
    ((migrateRegistrations noErr
        [sampleReg (.text "R1") .null, sampleReg (.text "R2") (.text "\x7b"),
         sampleReg (.text "R3") .null] emptyDb).writes.length = 1
     ∧ (migrateRegistrations noErr
        [sampleReg (.text "R1") .null, sampleReg (.text "R2") (.text "\x7b"),
         sampleReg (.text "R3") .null] emptyDb).thrown
        = some "Expected string key in JSON object"
     ∧ (migrateRegistrations noErr
        [sampleReg (.text "R1") .null, sampleReg (.text "R2") (.text "\x7b"),
         sampleReg (.text "R3") .null] emptyDb).logs = [.success "R1"])
    ∧ ((migrateEvents (fun _ _ => some "connection failure")
          [sampleEvent (.text "EVT-1") (.text "Hack Nite") .null .null] emptyDb).logs
        = [.failure "Hack Nite" "connection failure"]
       ∧ jsShow (sampleEvent (.text "EVT-1") (.text "Hack Nite") .null .null).event_id
          = "EVT-1"
       ∧ "Hack Nite" ≠ "EVT-1") :=
  ⟨⟨by decide, by decide, by decide⟩, by decide, rfl, by decide⟩

/-- **C2 (amended)**: a failure *reported by the destination write* is
caught, logged with the error text and a per-table row label (the email
for users, the `registration_id` for registrations — but the title for
events and the fest title for fests), and processing continues: every row
is still submitted and exactly the failing rows are marked.  A malformed
JSON source column, by contrast, throws during mapping: that table's
processing stops at the bad row (earlier rows' writes stand) and the
error propagates. -/
theorem per_row_write_failure_isolation :
    (∀ (err : ErrOracle) (rows : List UserRow) (st : Supabase), rows ≠ [] →
       (migrateUsers err rows st).thrown = none
       ∧ (migrateUsers err rows st).writes =
           rows.map (fun u => WriteOp.upsert "users" (mapUser u) "email")
       ∧ (migrateUsers err rows st).logs =
           rows.map (fun u =>
             match err "users" (mapUser u) with
             | some msg => LogLine.failure (jsShow u.email) msg
             | none => LogLine.success (jsShow u.email)))
    ∧ (∀ (err : ErrOracle) (rows : List RegRow) (st : Supabase), rows ≠ [] →
       (∀ g ∈ rows, ((mapRegistration g).toOption.isSome : Bool)) →
       (migrateRegistrations err rows st).thrown = none
       ∧ (migrateRegistrations err rows st).writes =
           rows.filterMap (fun g => (mapRegistration g).toOption.map
             (fun p => WriteOp.upsert "registrations" p "registration_id"))
       ∧ (migrateRegistrations err rows st).logs =
           rows.filterMap (fun g => (mapRegistration g).toOption.map
             (fun p =>
               match err "registrations" p with
               | some msg => LogLine.failure (jsShow g.registration_id) msg
               | none => LogLine.success (jsShow g.registration_id))))
    ∧ (∀ (err : ErrOracle) (pre : List RegRow) (g : RegRow) (post : List RegRow)
         (st : Supabase) (e : String),
       (∀ x ∈ pre, ((mapRegistration x).toOption.isSome : Bool)) →
       mapRegistration g = .error e →
       (migrateRegistrations err (pre ++ g :: post) st).thrown = some e
       ∧ (migrateRegistrations err (pre ++ g :: post) st).writes.length
          = pre.length) := by
  refine ⟨?_, ?_, ?_⟩
  · intro err rows st hne
    have hl : ¬ rows.length = 0 := by simpa using hne
    simp [migrateUsers, hl, usersLoop_thrown, usersLoop_writes, usersLoop_logs]
  · intro err rows st hne hok
    have hl : ¬ rows.length = 0 := by simpa using hne
    simp [migrateRegistrations, hl, registrationsLoop_thrown err rows st hok,
      registrationsLoop_writes err rows st hok,
      registrationsLoop_logs err rows st hok]
  · intro err pre g post st e hok hg
    have hl : ¬ (pre ++ g :: post).length = 0 := by simp
    simpa [migrateRegistrations, hl] using
      registrationsLoop_throw err pre g post st e hok hg

/-- **C2 witness**: three user rows, the destination rejecting exactly
the second: all three are submitted, and the logs mark exactly one
failure, labelled with the second row's email. -/
theorem per_row_write_failure_isolation_witness :
    (migrateUsers
        (fun _ p => if p.lookup "email" = some (.fromSql (.text "b@x.com"))
                    then some "duplicate key" else none)
        [sampleUser (.text "a@x.com") .null .null,
         sampleUser (.text "b@x.com") .null .null,
         sampleUser (.text "c@x.com") .null .null] emptyDb).logs
      = [.success "a@x.com", .failure "b@x.com" "duplicate key",
         .success "c@x.com"]
    ∧ (migrateUsers
        (fun _ p => if p.lookup "email" = some (.fromSql (.text "b@x.com"))
                    then some "duplicate key" else none)
        [sampleUser (.text "a@x.com") .null .null,
         sampleUser (.text "b@x.com") .null .null,
         sampleUser (.text "c@x.com") .null .null] emptyDb).writes.length = 3 :=
  ⟨((per_row_write_failure_isolation.1
      (fun _ p => if p.lookup "email" = some (.fromSql (.text "b@x.com"))
                  then some "duplicate key" else none)
      [sampleUser (.text "a@x.com") .null .null,
       sampleUser (.text "b@x.com") .null .null,
       sampleUser (.text "c@x.com") .null .null] emptyDb (by decide)).2.2).trans
      (by decide),
   (congrArg List.length ((per_row_write_failure_isolation.1
      (fun _ p => if p.lookup "email" = some (.fromSql (.text "b@x.com"))
                  then some "duplicate key" else none)
      [sampleUser (.text "a@x.com") .null .null,
       sampleUser (.text "b@x.com") .null .null,
       sampleUser (.text "c@x.com") .null .null] emptyDb (by decide)).2.1)).trans
      (by decide)⟩

/-- **C7 counterexample**: when the `users` table read fails, the
`events` table — whose read would succeed, with a mappable row and a
healthy destination — is never queried and never written: the six table
migrations are not independent steps, as all run inside one
`try`/`catch`. -/
theorem source_read_failure_cex :
    (main "yes" noErr
        ⟨.error "SqliteError: no such table: users",
         .ok [sampleEvent (.text "E1") (.text "T1") .null .null],
         .ok [], .ok [], .ok [], .ok []⟩ emptyDb).writes = []
    ∧ (main "yes" noErr
        ⟨.error "SqliteError: no such table: users",
         .ok [sampleEvent (.text "E1") (.text "T1") .null .null],
         .ok [], .ok [], .ok [], .ok []⟩ emptyDb).src
        = [.openDb, .query "users", .closeDb]
    ∧ (main "yes" noErr
        ⟨.error "SqliteError: no such table: users",
         .ok [sampleEvent (.text "E1") (.text "T1") .null .null],
         .ok [], .ok [], .ok [], .ok []⟩ emptyDb).caught
        = some "SqliteError: no such table: users"
    ∧ SrcOp.query "events" ∉ (main "yes" noErr
        ⟨.error "SqliteError: no such table: users",
         .ok [sampleEvent (.text "E1") (.text "T1") .null .null],
         .ok [], .ok [], .ok [], .ok []⟩ emptyDb).src :=
  ⟨by decide, by decide, by decide, by decide⟩

/-- **C7 (amended)**: a failed source-table read is fatal for that table
and the error propagates to `main`, whose single `try`/`catch` catches
it — but it also aborts every remaining table's migration: with the
`users` read failing nothing is written at all, and with the `events`
read failing only the users writes happen; the SQLite handle is still
closed. -/
theorem source_read_failure_aborts_rest :
    (∀ (err : ErrOracle) (db : SqliteDb) (st : Supabase) (e : String),
       db.users = .error e →
       (main "yes" err db st).caught = some e
       ∧ (main "yes" err db st).writes = []
       ∧ (main "yes" err db st).state = st
       ∧ (main "yes" err db st).src = [.openDb, .query "users", .closeDb])
    ∧ (∀ (err : ErrOracle) (db : SqliteDb) (st : Supabase) (e : String)
         (urows : List UserRow),
       db.users = .ok urows → db.events = .error e →
       (main "yes" err db st).caught = some e
       ∧ (main "yes" err db st).writes =
           urows.map (fun u => WriteOp.upsert "users" (mapUser u) "email")
       ∧ (main "yes" err db st).src =
           [.openDb, .query "users", .query "events", .closeDb]) := by
  have hcond : ¬ (jsToLower "yes" ≠ "yes" ∧ jsToLower "yes" ≠ "y") := by decide
  constructor
  · intro err db st e hu
    simp [main, hcond, runMigration, runStep, hu]
  · intro err db st e urows hu hev
    simp [main, hcond, runMigration, runStep, hu, hev, migrateUsers_thrown,
      migrateUsers_writes]

/-- **C7 witness**: concrete instantiations of both parts of the amended
claim. -/
theorem source_read_failure_aborts_rest_witness :
    (main "yes" noErr ⟨.error "boom", .ok [], .ok [], .ok [], .ok [], .ok []⟩
        emptyDb).caught = some "boom"
    ∧ (main "yes" noErr ⟨.error "boom", .ok [], .ok [], .ok [], .ok [], .ok []⟩
        emptyDb).writes = []
    ∧ (main "yes" noErr
        ⟨.ok [sampleUser (.text "a@x.com") .null .null], .error "gone",
         .ok [], .ok [], .ok [], .ok []⟩ emptyDb).src
        = [.openDb, .query "users", .query "events", .closeDb] :=
  ⟨(source_read_failure_aborts_rest.1 noErr
      ⟨.error "boom", .ok [], .ok [], .ok [], .ok [], .ok []⟩ emptyDb "boom" rfl).1,
   (source_read_failure_aborts_rest.1 noErr
      ⟨.error "boom", .ok [], .ok [], .ok [], .ok [], .ok []⟩ emptyDb "boom" rfl).2.1,
   (source_read_failure_aborts_rest.2 noErr
      ⟨.ok [sampleUser (.text "a@x.com") .null .null], .error "gone",
       .ok [], .ok [], .ok [], .ok []⟩ emptyDb "gone"
      [sampleUser (.text "a@x.com") .null .null] rfl rfl).2.2⟩

/-- **C9**: on every run the source store sees no write operation; it is
opened exactly once, and on a confirmed run it is queried with whole-table
selects only and closed exactly once, at the end. -/
theorem source_store_read_only (answer : String) (err : ErrOracle)
    (db : SqliteDb) (st : Supabase) :
    (∀ t, SrcOp.write t ∉ (main answer err db st).src)
    ∧ (main answer err db st).src.count SrcOp.openDb = 1
    ∧ ((jsToLower answer = "yes" ∨ jsToLower answer = "y") →
        (main answer err db st).src.count SrcOp.closeDb = 1
        ∧ (main answer err db st).src.getLast? = some SrcOp.closeDb
        ∧ ∀ op ∈ (main answer err db st).src,
            op = SrcOp.openDb ∨ op = SrcOp.closeDb ∨ ∃ t, op = SrcOp.query t) := by
  by_cases hc : jsToLower answer ≠ "yes" ∧ jsToLower answer ≠ "y"
  · have hm : (main answer err db st).src = [SrcOp.openDb] := by
      unfold main; rw [if_pos hc]
    rw [hm]
    refine ⟨?_, by simp, ?_⟩
    · intro t ht
      simp at ht
    · intro haff
      rcases haff with h | h
      · exact absurd h hc.1
      · exact absurd h hc.2
  · have hm : (main answer err db st).src =
        SrcOp.openDb :: (runMigration err db st).src ++ [SrcOp.closeDb] := by
      unfold main; rw [if_neg hc]
    have hq := runMigration_src_queries err db st
    have hopen_notin :
        SrcOp.openDb ∉ (runMigration err db st).src ++ [SrcOp.closeDb] := by
      intro hmem
      rcases List.mem_append.mp hmem with h | h
      · obtain ⟨t, ht⟩ := hq _ h
        exact absurd ht (by simp)
      · simp at h
    have hclose_notin : SrcOp.closeDb ∉ (runMigration err db st).src := by
      intro hmem
      obtain ⟨t, ht⟩ := hq _ hmem
      exact absurd ht (by simp)
    have hopen_q : SrcOp.openDb ∉ (runMigration err db st).src := by
      intro hmem
      exact hopen_notin (List.mem_append.mpr (Or.inl hmem))
    rw [hm]
    refine ⟨?_, ?_, ?_⟩
    · intro t ht
      rcases List.mem_append.mp ht with h | h
      · rcases List.mem_cons.mp h with h2 | h2
        · exact absurd h2 (by simp)
        · obtain ⟨t2, ht2⟩ := hq _ h2
          exact absurd ht2 (by simp)
      · simp at h
    · rw [List.count_append, List.count_cons_self,
        List.count_eq_zero_of_not_mem hopen_q]
      decide
    · intro _
      refine ⟨?_, ?_, ?_⟩
      · rw [List.count_append, List.count_cons,
          List.count_eq_zero_of_not_mem hclose_notin]
        decide
      · rw [List.getLast?_concat]
      · intro op hop
        rcases List.mem_append.mp hop with h | h
        · rcases List.mem_cons.mp h with h2 | h2
          · exact Or.inl h2
          · exact Or.inr (Or.inr (hq _ h2))
        · exact Or.inr (Or.inl (List.mem_singleton.mp h))

/-- **C9 witness**: a concrete confirmed run never writes to the source
store and closes it exactly once. -/
theorem source_store_read_only_witness :
    SrcOp.write "users" ∉
      (main "yes" noErr (dbOf [] [] [] [] [] []) emptyDb).src
    ∧ (main "yes" noErr (dbOf [] [] [] [] [] []) emptyDb).src.count
        SrcOp.closeDb = 1 :=
  ⟨(source_store_read_only "yes" noErr (dbOf [] [] [] [] [] []) emptyDb).1
      "users",
   ((source_store_read_only "yes" noErr (dbOf [] [] [] [] [] []) emptyDb).2.2
      (Or.inl (by decide))).1⟩

/-- **C1**: for the four natural-keyed tables, the destination write is
an upsert keyed on the declared natural-key column, so migrating the same
source twice into an initially empty destination leaves exactly one row
per distinct natural-key value, holding the last (second-run) mapped
record with that key value — last-write-wins. -/
theorem upsert_tables_idempotent :
    (∀ (rows : List UserRow) (kv : Option DVal),
      countKey "email" kv
        ((migrateUsers noErr rows
            (migrateUsers noErr rows emptyDb).state).state.users)
        = (if 0 < (rows.map mapUser).countP
              (fun p => decide (p.lookup "email" = kv)) then 1 else 0)
      ∧ getByKey "email" kv
          ((migrateUsers noErr rows
              (migrateUsers noErr rows emptyDb).state).state.users)
        = lastWith "email" kv (rows.map mapUser))
    ∧ (∀ rows : List EventRow,
        (∀ e ∈ rows, ((mapEvent e).toOption.isSome : Bool)) →
        ∀ kv : Option DVal,
      countKey "event_id" kv
        ((migrateEvents noErr rows
            (migrateEvents noErr rows emptyDb).state).state.events)
        = (if 0 < (eventPayloads rows).countP
              (fun p => decide (p.lookup "event_id" = kv)) then 1 else 0)
      ∧ getByKey "event_id" kv
          ((migrateEvents noErr rows
              (migrateEvents noErr rows emptyDb).state).state.events)
        = lastWith "event_id" kv (eventPayloads rows))
    ∧ (∀ rows : List FestRow,
        (∀ f ∈ rows, ((mapFest f).toOption.isSome : Bool)) →
        ∀ kv : Option DVal,
      countKey "fest_id" kv
        ((migrateFests noErr rows
            (migrateFests noErr rows emptyDb).state).state.fests)
        = (if 0 < (festPayloads rows).countP
              (fun p => decide (p.lookup "fest_id" = kv)) then 1 else 0)
      ∧ getByKey "fest_id" kv
          ((migrateFests noErr rows
              (migrateFests noErr rows emptyDb).state).state.fests)
        = lastWith "fest_id" kv (festPayloads rows))
    ∧ (∀ rows : List RegRow,
        (∀ g ∈ rows, ((mapRegistration g).toOption.isSome : Bool)) →
        ∀ kv : Option DVal,
      countKey "registration_id" kv
        ((migrateRegistrations noErr rows
            (migrateRegistrations noErr rows emptyDb).state).state.registrations)
        = (if 0 < (regPayloads rows).countP
              (fun p => decide (p.lookup "registration_id" = kv)) then 1 else 0)
      ∧ getByKey "registration_id" kv
          ((migrateRegistrations noErr rows
              (migrateRegistrations noErr rows emptyDb).state).state.registrations)
        = lastWith "registration_id" kv (regPayloads rows)) := by
  refine ⟨?_, ?_, ?_, ?_⟩
  · intro rows kv
    have h1 : ((migrateUsers noErr rows emptyDb).state).users
        = runUpserts "email" (rows.map mapUser) [] := by
      rw [migrateUsers_state_noErr]
      rfl
    have h2 : ((migrateUsers noErr rows
        (migrateUsers noErr rows emptyDb).state).state).users
        = runUpserts "email" (rows.map mapUser)
            (runUpserts "email" (rows.map mapUser) []) := by
      rw [migrateUsers_state_noErr]
      show runUpserts _ _ (((migrateUsers noErr rows emptyDb).state).users) = _
      rw [h1]
    rw [h2]
    exact twice_upserts_canonical "email" (rows.map mapUser) kv
  · intro rows hok kv
    have h1 : ((migrateEvents noErr rows emptyDb).state).events
        = runUpserts "event_id" (eventPayloads rows) [] := by
      rw [migrateEvents_state_noErr rows emptyDb hok]
      rfl
    have h2 : ((migrateEvents noErr rows
        (migrateEvents noErr rows emptyDb).state).state).events
        = runUpserts "event_id" (eventPayloads rows)
            (runUpserts "event_id" (eventPayloads rows) []) := by
      rw [migrateEvents_state_noErr rows _ hok]
      show runUpserts _ _ (((migrateEvents noErr rows emptyDb).state).events) = _
      rw [h1]
    rw [h2]
    exact twice_upserts_canonical "event_id" (eventPayloads rows) kv
  · intro rows hok kv
    have h1 : ((migrateFests noErr rows emptyDb).state).fests
        = runUpserts "fest_id" (festPayloads rows) [] := by
      rw [migrateFests_state_noErr rows emptyDb hok]
      rfl
    have h2 : ((migrateFests noErr rows
        (migrateFests noErr rows emptyDb).state).state).fests
        = runUpserts "fest_id" (festPayloads rows)
            (runUpserts "fest_id" (festPayloads rows) []) := by
      rw [migrateFests_state_noErr rows _ hok]
      show runUpserts _ _ (((migrateFests noErr rows emptyDb).state).fests) = _
      rw [h1]
    rw [h2]
    exact twice_upserts_canonical "fest_id" (festPayloads rows) kv
  · intro rows hok kv
    have h1 : ((migrateRegistrations noErr rows emptyDb).state).registrations
        = runUpserts "registration_id" (regPayloads rows) [] := by
      rw [migrateRegistrations_state_noErr rows emptyDb hok]
      rfl
    have h2 : ((migrateRegistrations noErr rows
        (migrateRegistrations noErr rows emptyDb).state).state).registrations
        = runUpserts "registration_id" (regPayloads rows)
            (runUpserts "registration_id" (regPayloads rows) []) := by
      rw [migrateRegistrations_state_noErr rows _ hok]
      show runUpserts _ _
        (((migrateRegistrations noErr rows emptyDb).state).registrations) = _
      rw [h1]
    rw [h2]
    exact twice_upserts_canonical "registration_id" (regPayloads rows) kv

/-- **C1 witness**: two user rows sharing an email, migrated twice from
empty, leave exactly one row with that email, holding the second row's
mapped values; a registration row keyed `R1` likewise ends as exactly one
row. -/
theorem upsert_tables_idempotent_witness :
    countKey "email" (some (.fromSql (.text "a@x.com")))
      ((migrateUsers noErr
          [sampleUser (.text "a@x.com") (.text "one") .null,
           sampleUser (.text "a@x.com") (.text "two") .null]
          (migrateUsers noErr
            [sampleUser (.text "a@x.com") (.text "one") .null,
             sampleUser (.text "a@x.com") (.text "two") .null]
            emptyDb).state).state.users)
      = 1
    ∧ getByKey "email" (some (.fromSql (.text "a@x.com")))
        ((migrateUsers noErr
            [sampleUser (.text "a@x.com") (.text "one") .null,
             sampleUser (.text "a@x.com") (.text "two") .null]
            (migrateUsers noErr
              [sampleUser (.text "a@x.com") (.text "one") .null,
               sampleUser (.text "a@x.com") (.text "two") .null]
              emptyDb).state).state.users)
      = some (mapUser (sampleUser (.text "a@x.com") (.text "two") .null))
    ∧ countKey "registration_id" (some (.fromSql (.text "R1")))
        ((migrateRegistrations noErr [sampleReg (.text "R1") .null]
            (migrateRegistrations noErr [sampleReg (.text "R1") .null]
              emptyDb).state).state.registrations)
      = 1 :=
  ⟨((upsert_tables_idempotent.1
      [sampleUser (.text "a@x.com") (.text "one") .null,
       sampleUser (.text "a@x.com") (.text "two") .null]
      (some (.fromSql (.text "a@x.com")))).1).trans (by decide),
   ((upsert_tables_idempotent.1
      [sampleUser (.text "a@x.com") (.text "one") .null,
       sampleUser (.text "a@x.com") (.text "two") .null]
      (some (.fromSql (.text "a@x.com")))).2).trans (by decide),
   ((upsert_tables_idempotent.2.2.2 [sampleReg (.text "R1") .null] (by decide)
      (some (.fromSql (.text "R1")))).1).trans (by decide)⟩

end Migrate
